import Mathlib

/-
Verification development for the MicroPop library (a popup/tooltip manager).

The repository carries three revisions of the same module:
  - src/index.js          (version 0.1.0, minimal)
  - src/unnamed/part_001  (version 0.1.1, adds construction checks and warnings)
  - src/unnamed/part_000  (version 0.2.0, adds roles, listeners and auto-discovery)
The Popup methods show / hide / toggle and the helper _getTargetId are textually
identical in all three revisions and are embedded once; the constructors, _init,
initPopup and the registry-level show / hide / toggle differ and are embedded
per revision with a version suffix (0 for 0.1.0, 1 for 0.1.1, 2 for 0.2.0).

The document-object model is embedded shallowly: an element is an attribute
map, a class list and a listener list; the document is a finite association
list from abstract element handles (Nat) to elements.  JavaScript exceptions
are modelled explicitly: operations that can throw return the mutated state
together with an optional error, because a thrown exception does not roll back
mutations already performed.
-/

set_option maxHeartbeats 1000000

namespace MicroPop

/-- An error a JavaScript execution can raise: a TypeError from dereferencing
null or undefined, or an explicitly thrown Error / DOMException with a message. -/
inductive JsError where
  | typeError : JsError
  | jsError : String → JsError
deriving DecidableEq

/-- An event listener registered on an element: the event name together with
the identity of the bound Popup method (instance number and method name);
two addEventListener calls with the same pair are collapsed by the DOM. -/
structure Listener where
  event : String
  inst : Nat
  method : String
deriving DecidableEq

/-- A DOM element: attribute map, class list and registered event listeners. -/
structure Element where
  attrs : List (String × String) := []
  classes : List String := []
  listeners : List Listener := []
deriving DecidableEq

/-- getAttribute on an attribute map: null (none) when the attribute is absent. -/
def getA : List (String × String) → String → Option String
  | [], _ => none
  | p :: rest, n => if p.1 = n then some p.2 else getA rest n

/-- setAttribute on an attribute map: overwrite the existing entry (attribute
names are unique in a DOM attribute map) or append a new one. -/
def setA : List (String × String) → String → String → List (String × String)
  | [], n, v => [(n, v)]
  | p :: rest, n, v => if p.1 = n then (p.1, v) :: rest else p :: setA rest n v

/-- The document: all live elements, keyed by an abstract element handle. -/
structure DOM where
  elems : List (Nat × Element)
deriving DecidableEq

/-- Look an element up by handle. -/
def findL : List (Nat × Element) → Nat → Option Element
  | [], _ => none
  | p :: rest, h => if p.1 = h then some p.2 else findL rest h

/-- Update the element stored under a handle (no-op when the handle is absent). -/
def updL (h : Nat) (f : Element → Element) : List (Nat × Element) → List (Nat × Element)
  | [] => []
  | p :: rest => (if p.1 = h then (p.1, f p.2) else p) :: updL h f rest

def DOM.getElem? (d : DOM) (h : Nat) : Option Element := findL d.elems h

def DOM.update (d : DOM) (h : Nat) (f : Element → Element) : DOM := ⟨updL h f d.elems⟩

def DOM.has (d : DOM) (h : Nat) : Bool := (d.getElem? h).isSome

def getAttrOf (d : DOM) (h : Nat) (n : String) : Option String :=
  (d.getElem? h).bind (fun e => getA e.attrs n)

def setAttrOf (d : DOM) (h : Nat) (n v : String) : DOM :=
  d.update h (fun e => { e with attrs := setA e.attrs n v })

def classesOf (d : DOM) (h : Nat) : List String :=
  ((d.getElem? h).map Element.classes).getD []

def listenersOf (d : DOM) (h : Nat) : List Listener :=
  ((d.getElem? h).map Element.listeners).getD []

/-- classList.add: appends the token unless already present.  Validity of the
token (classList.add throws on an empty token or one containing whitespace)
is checked by the caller through validToken. -/
def classAddOf (d : DOM) (h : Nat) (c : String) : DOM :=
  d.update h (fun e =>
    { e with classes := if c ∈ e.classes then e.classes else e.classes ++ [c] })

/-- classList.remove: removes every occurrence of the token. -/
def classRemoveOf (d : DOM) (h : Nat) (c : String) : DOM :=
  d.update h (fun e => { e with classes := e.classes.filter (fun x => x ≠ c) })

/-- addEventListener: appends the listener unless an identical (event, callback)
pair is already registered. -/
def addListenerOf (d : DOM) (h : Nat) (l : Listener) : DOM :=
  d.update h (fun e =>
    { e with listeners := if l ∈ e.listeners then e.listeners else e.listeners ++ [l] })

/-- The element property .id: the id attribute, or the empty string when absent. -/
def elemNativeId (d : DOM) (h : Nat) : String := (getAttrOf d h "id").getD ""

/-- Scan for the first element whose id attribute equals the given string. -/
def byIdL : List (Nat × Element) → String → Option Nat
  | [], _ => none
  | p :: rest, s => if getA p.2.attrs "id" = some s then some p.1 else byIdL rest s

/-- document.getElementById: the first element whose id attribute equals the
given string; the empty string never matches. -/
def getElementById (d : DOM) (s : String) : Option Nat :=
  if s = "" then none else byIdL d.elems s

/-- ASCII whitespace, the characters a classList token may not contain. -/
def wsChar (ch : Char) : Bool :=
  ch == ' ' || ch == '\t' || ch == '\n' || ch == '\x0c' || ch == '\r'

/-- A classList token is valid if non-empty and free of ASCII whitespace;
classList.add / classList.remove throw a DOMException on an invalid token. -/
def validToken (c : String) : Bool :=
  c != "" && !(c.toList.any wsChar)

/-- A reference as accepted by the public API: a string identifier, an element
reference, or anything else (null / undefined), which the library treats as
neither. -/
inductive Ref where
  | str : String → Ref
  | elem : Nat → Ref
  | other : Ref
deriving DecidableEq

/-- The triggers argument of the Popup constructor: either an array of
elements or a single element (the constructor arrayifies the latter). -/
inductive TriggersArg where
  | arr : List Nat → TriggersArg
  | single : Nat → TriggersArg
deriving DecidableEq

/-- The character-level worker of the split: accumulate the current chunk
(in reverse) and cut at every space. -/
def splitChars : List Char → List Char → List String
  | [], acc => [String.mk acc.reverse]
  | c :: rest, acc =>
    if c = ' ' then String.mk acc.reverse :: splitChars rest []
    else splitChars rest (c :: acc)

/-- String.prototype.split with the single-space separator the library uses:
every space cuts, empty chunks are kept, the empty string yields one empty
chunk. -/
def splitSp (s : String) : List String := splitChars s.toList []

/-- Array.isArray(triggers) ? triggers : [triggers] -/
def arrayify : TriggersArg → List Nat
  | .arr l => l
  | .single t => [t]

/-- JavaScript truthiness of an optional string (null / undefined and the
empty string are falsy). -/
def truthyS : Option String → Bool
  | some s => s != ""
  | none => false

/-- JavaScript truthiness of an optional reference (null / undefined and the
empty string are falsy, every element reference is truthy). -/
def refTruthy : Option Ref → Bool
  | some (.str s) => s != ""
  | some (.elem _) => true
  | some .other => false
  | none => false

/-- The short-circuiting a || b on nullable strings. -/
def jsOr (a b : Option String) : Option String := if truthyS a then a else b

/-- The process-wide options object.  The 0.1.x revisions carry a subset of
these fields with the same defaults; the extra fields are simply unused there. -/
structure Options where
  openTrigger : String := "data-micropop-trigger"
  identifier : String := "data-micropop-id"
  libraryAttribute : String := "data-micropop"
  debugMode : Bool := false
  openClass : String := "is-open"
deriving DecidableEq

def dfltOptions : Options := {}

/-- A constructed Popup instance.  instId is the allocation number of the
object and models its identity (reference equality).  triggerConfigs stores
the per-trigger role exactly as the constructor computes it. -/
structure PopupInst where
  instId : Nat
  popupEl : Nat
  triggers : List Nat
  openClass : String
  role : Option String
  triggerConfigs : List (Nat × Option String)
deriving DecidableEq

/-- Popup.prototype.show, identical in all three revisions:
if aria-hidden is already the string false, return; otherwise set aria-hidden
to false on the popup element, aria-expanded to true on the first trigger
(a TypeError when there is no trigger: this.triggers[0] is undefined), and add
the open class (a DOMException when the class is not a valid token).  Thrown
errors do not roll back the mutations already performed. -/
def PopupInst.show (p : PopupInst) (d : DOM) : DOM × Option JsError :=
  if getAttrOf d p.popupEl "aria-hidden" = some "false" then (d, none)
  else
    let d1 := setAttrOf d p.popupEl "aria-hidden" "false"
    match p.triggers.head? with
    | none => (d1, some JsError.typeError)
    | some t =>
      let d2 := setAttrOf d1 t "aria-expanded" "true"
      if validToken p.openClass then (classAddOf d2 p.popupEl p.openClass, none)
      else (d2, some (JsError.jsError "DOMException: invalid class token"))

/-- Popup.prototype.hide, identical in all three revisions: the exact mirror
of show. -/
def PopupInst.hide (p : PopupInst) (d : DOM) : DOM × Option JsError :=
  if getAttrOf d p.popupEl "aria-hidden" = some "true" then (d, none)
  else
    let d1 := setAttrOf d p.popupEl "aria-hidden" "true"
    match p.triggers.head? with
    | none => (d1, some JsError.typeError)
    | some t =>
      let d2 := setAttrOf d1 t "aria-expanded" "false"
      if validToken p.openClass then (classRemoveOf d2 p.popupEl p.openClass, none)
      else (d2, some (JsError.jsError "DOMException: invalid class token"))

/-- Popup.prototype.toggle, identical in all three revisions: dispatch on the
current aria-hidden attribute.  The optional event argument only receives
preventDefault, which has no observable effect in this model, so it is
omitted. -/
def PopupInst.toggle (p : PopupInst) (d : DOM) : DOM × Option JsError :=
  if getAttrOf d p.popupEl "aria-hidden" = some "true" then p.show d else p.hide d

/-- The three accessibility attributes every revision's _init sets on the
popup element, in source order. -/
def initAria (d : DOM) (h : Nat) : DOM :=
  setAttrOf (setAttrOf (setAttrOf d h "aria-haspopup" "true") h "aria-expanded" "false")
    h "aria-hidden" "true"

/-- One iteration of the 0.2.0 _init forEach over triggerConfigs: for role
tooltip set role=tooltip on the popup and attach mouseenter / focus (show) and
mouseleave / blur (hide) on the trigger; for role dialog set role=dialog and
attach click (toggle); any other role attaches nothing. -/
def attachTrigger (popupEl instId : Nat) (d : DOM) (tc : Nat × Option String) : DOM :=
  match tc.2 with
  | some r =>
    if r = "tooltip" then
      let da := setAttrOf d popupEl "role" "tooltip"
      let db := addListenerOf da tc.1 ⟨"mouseenter", instId, "show"⟩
      let dc := addListenerOf db tc.1 ⟨"focus", instId, "show"⟩
      let dd := addListenerOf dc tc.1 ⟨"mouseleave", instId, "hide"⟩
      addListenerOf dd tc.1 ⟨"blur", instId, "hide"⟩
    else if r = "dialog" then
      addListenerOf (setAttrOf d popupEl "role" "dialog") tc.1 ⟨"click", instId, "toggle"⟩
    else d
  | none => d

/-- The 0.2.0 _init: aria attributes, then the per-trigger role / listener
attachment. -/
def initFull (p : PopupInst) (d : DOM) : DOM :=
  p.triggerConfigs.foldl (attachTrigger p.popupEl p.instId) (initAria d p.popupEl)

/-- A constructor configuration, after destructuring defaults: popup is the
optional display-element reference (none models an absent / undefined
property), triggers defaults to the empty array, openClass to is-open and
role to null. -/
structure PopupCfg where
  popup : Option Ref := none
  triggers : TriggersArg := .arr []
  openClass : String := "is-open"
  role : Option String := none
deriving DecidableEq

/-- typeof popup === a string ? document.getElementById(popup) : popup -/
def resolveRef (d : DOM) : Option Ref → Option Nat
  | some (.str s) => getElementById d s
  | some (.elem h) => some h
  | some .other => none
  | none => none

/-- The 0.1.0 Popup constructor (src/index.js).  No guards: a popup reference
that resolves to null or undefined makes _init throw a TypeError; passing a
single non-array trigger makes the raw triggers.map throw a TypeError.  On
any error the document is unchanged (the throw happens before _init mutates
anything).  n is the allocation number given to the new instance. -/
def construct0 (d : DOM) (n : Nat) (cfg : PopupCfg) : Except JsError (PopupInst × DOM) :=
  let trigs := arrayify cfg.triggers
  let popupEl? := resolveRef d cfg.popup
  match cfg.triggers with
  | .single _ => .error JsError.typeError
  | .arr l =>
    match popupEl? with
    | none => .error JsError.typeError
    | some h =>
      let p : PopupInst :=
        { instId := n, popupEl := h, triggers := trigs, openClass := cfg.openClass,
          role := none, triggerConfigs := l.map (fun t => (t, none)) }
      .ok (p, initAria d h)

/-- The 0.1.1 Popup constructor (src/unnamed/part_001): throws a
ConfigurationError when no popup reference is supplied, and the dedicated
could-not-find error (the spec's ElementNotFoundError) when the reference
resolves to nothing, before any DOM mutation. -/
def construct1 (d : DOM) (n : Nat) (cfg : PopupCfg) : Except JsError (PopupInst × DOM) :=
  let trigs := arrayify cfg.triggers
  if refTruthy cfg.popup = false then
    .error (JsError.jsError "[MicroPop] No popup was supplied to initialize the popup.")
  else
    match resolveRef d cfg.popup with
    | none => .error (JsError.jsError "[MicroPop] Could not find the popup element id:")
    | some h =>
      match cfg.triggers with
      | .single _ => .error JsError.typeError
      | .arr l =>
        let p : PopupInst :=
          { instId := n, popupEl := h, triggers := trigs, openClass := cfg.openClass,
            role := none, triggerConfigs := l.map (fun t => (t, none)) }
        .ok (p, initAria d h)

/-- The 0.2.0 Popup constructor (src/unnamed/part_000).  With a falsy popup
reference the display element is derived from the first trigger: the role is
role || the first token of the trigger's open-trigger attribute (reading the
attribute of a trigger that lacks it throws a TypeError through null.split),
then the role-namespaced library attribute supplies the element id.  A truthy
popup reference resolves as in 0.1.x.  A null resolved element makes _init
throw a TypeError.  Errors occur before any DOM mutation. -/
def construct2 (opts : Options) (d : DOM) (n : Nat) (cfg : PopupCfg) :
    Except JsError (PopupInst × DOM) :=
  let trigs := arrayify cfg.triggers
  let resolved : Except JsError (Option Nat × Option String) :=
    if refTruthy cfg.popup then .ok (resolveRef d cfg.popup, none)
    else
      match trigs.head? with
      | none =>
        .error (JsError.jsError
          "[MicroPop] No popup or trigger were supplied to initialize the popup.")
      | some t0 =>
        let derived : Except JsError String :=
          if truthyS cfg.role then .ok (cfg.role.getD "")
          else
            match getAttrOf d t0 opts.openTrigger with
            | none => .error JsError.typeError
            | some v => .ok ((splitSp v).headD "")
        match derived with
        | .error e => .error e
        | .ok dr =>
          if dr = "" then
            .error (JsError.jsError "[MicroPop] No role could be derived from the trigger element.")
          else
            let idt := getAttrOf d t0 (opts.libraryAttribute ++ "-" ++ dr)
            if truthyS idt then .ok (getElementById d (idt.getD ""), some dr)
            else
              .error (JsError.jsError
                "[MicroPop] No popup id could be derived from the trigger element.")
  match resolved with
  | .error e => .error e
  | .ok (popupEl?, derivedRole) =>
    match popupEl? with
    | none => .error JsError.typeError
    | some h =>
      let p : PopupInst :=
        { instId := n, popupEl := h, triggers := trigs, openClass := cfg.openClass,
          role := cfg.role, triggerConfigs := trigs.map (fun t => (t, jsOr cfg.role derivedRole)) }
      .ok (p, initFull p d)

/-- The process-wide library state: the document, the popups registry, the
generated-id counter, the object-allocation counter (models reference
identity of Popup instances), the options object and the number of
console.warn diagnostics emitted so far. -/
structure MPState where
  dom : DOM
  popups : List (String × PopupInst) := []
  gen : Nat := 0
  nextInst : Nat := 0
  options : Options := {}
  warnCount : Nat := 0
deriving DecidableEq

/-- Own-property lookup in the popups registry object. -/
def regFind : List (String × PopupInst) → String → Option PopupInst
  | [], _ => none
  | p :: rest, k => if p.1 = k then some p.2 else regFind rest k

/-- The helper _getTargetId, identical in all three revisions: a string is returned
unchanged; for an element prefer a truthy identifier attribute, then a truthy
native id, else pre-increment the counter, stamp the generated
micropop-n identifier onto the element and return it; anything else gives
null. -/
def _getTargetId (s : MPState) (r : Ref) : Option String × MPState :=
  match r with
  | .str t => (some t, s)
  | .elem h =>
    let tid := getAttrOf s.dom h s.options.identifier
    if truthyS tid then (tid, s)
    else if elemNativeId s.dom h != "" then (some (elemNativeId s.dom h), s)
    else
      let n := s.gen + 1
      let newId := "micropop-" ++ toString n
      (some newId, { s with gen := n, dom := setAttrOf s.dom h s.options.identifier newId })
  | .other => (none, s)

/-- An initPopup configuration: every property is optional (absent models an
object without the key). -/
structure InitConfig where
  popup : Option Ref := none
  triggers : Option TriggersArg := none
  openClass : Option String := none
  role : Option String := none
  targetPopupId : Option String := none
deriving DecidableEq

/-- The target-id resolution step at the top of every initPopup: keep a truthy
explicitly supplied targetPopupId, otherwise derive it from the popup
reference via _getTargetId. -/
def resolveTarget (s : MPState) (cfg : InitConfig) : Option String × MPState :=
  if truthyS cfg.targetPopupId then (cfg.targetPopupId, s)
  else _getTargetId s (cfg.popup.getD .other)

/-- The registry key a resolved target id produces: JavaScript stringifies a
null property key to the four-letter string null. -/
def keyOf : Option String → String
  | some t => t
  | none => "null"

/-- The 0.1.0 initPopup (src/index.js): when the key is already registered it
bare-returns, producing undefined (ok none); otherwise it constructs,
registers, stamps the identifier attribute onto the popup element and returns
the new instance. -/
def initPopup0 (s : MPState) (cfg : InitConfig) : Except JsError (Option PopupInst) × MPState :=
  let oc := match cfg.openClass with
    | some c => c
    | none => s.options.openClass
  let res := resolveTarget s cfg
  let s1 := res.2
  let key := keyOf res.1
  match regFind s1.popups key with
  | some _ => (.ok none, s1)
  | none =>
    match construct0 s1.dom s1.nextInst
        { popup := cfg.popup, triggers := cfg.triggers.getD (.arr []),
          openClass := oc, role := cfg.role } with
    | .error e => (.error e, s1)
    | .ok (p, d1) =>
      (.ok (some p),
        { s1 with dom := setAttrOf d1 p.popupEl s1.options.identifier key,
                  popups := s1.popups ++ [(key, p)], nextInst := s1.nextInst + 1 })

/-- The 0.1.1 initPopup (src/unnamed/part_001): as 0.1.0, except a duplicate
key returns the already-registered instance (warning in debug mode) and
construction goes through the 0.1.1 constructor. -/
def initPopup1 (s : MPState) (cfg : InitConfig) : Except JsError (Option PopupInst) × MPState :=
  let oc := match cfg.openClass with
    | some c => c
    | none => s.options.openClass
  let res := resolveTarget s cfg
  let s1 := res.2
  let key := keyOf res.1
  match regFind s1.popups key with
  | some p =>
    (.ok (some p), if s1.options.debugMode then { s1 with warnCount := s1.warnCount + 1 } else s1)
  | none =>
    match construct1 s1.dom s1.nextInst
        { popup := cfg.popup, triggers := cfg.triggers.getD (.arr []),
          openClass := oc, role := cfg.role } with
    | .error e => (.error e, s1)
    | .ok (p, d1) =>
      (.ok (some p),
        { s1 with dom := setAttrOf d1 p.popupEl s1.options.identifier key,
                  popups := s1.popups ++ [(key, p)], nextInst := s1.nextInst + 1 })

/-- The 0.2.0 initPopup (src/unnamed/part_000): as 0.1.1 but constructing
through the 0.2.0 constructor. -/
def initPopup2 (s : MPState) (cfg : InitConfig) : Except JsError (Option PopupInst) × MPState :=
  let oc := match cfg.openClass with
    | some c => c
    | none => s.options.openClass
  let res := resolveTarget s cfg
  let s1 := res.2
  let key := keyOf res.1
  match regFind s1.popups key with
  | some p =>
    (.ok (some p), if s1.options.debugMode then { s1 with warnCount := s1.warnCount + 1 } else s1)
  | none =>
    match construct2 s1.options s1.dom s1.nextInst
        { popup := cfg.popup, triggers := cfg.triggers.getD (.arr []),
          openClass := oc, role := cfg.role } with
    | .error e => (.error e, s1)
    | .ok (p, d1) =>
      (.ok (some p),
        { s1 with dom := setAttrOf d1 p.popupEl s1.options.identifier key,
                  popups := s1.popups ++ [(key, p)], nextInst := s1.nextInst + 1 })

/-- The 0.1.0 registry-level show: resolve the id, delegate when registered,
silently no-op otherwise. -/
def show0 (s : MPState) (r : Ref) : MPState × Option JsError :=
  let res := _getTargetId s r
  let s1 := res.2
  match regFind s1.popups (keyOf res.1) with
  | some p =>
    let q := p.show s1.dom
    ({ s1 with dom := q.1 }, q.2)
  | none => (s1, none)

/-- The 0.1.0 registry-level hide. -/
def hide0 (s : MPState) (r : Ref) : MPState × Option JsError :=
  let res := _getTargetId s r
  let s1 := res.2
  match regFind s1.popups (keyOf res.1) with
  | some p =>
    let q := p.hide s1.dom
    ({ s1 with dom := q.1 }, q.2)
  | none => (s1, none)

/-- The 0.1.0 registry-level toggle. -/
def toggle0 (s : MPState) (r : Ref) : MPState × Option JsError :=
  let res := _getTargetId s r
  let s1 := res.2
  match regFind s1.popups (keyOf res.1) with
  | some p =>
    let q := p.toggle s1.dom
    ({ s1 with dom := q.1 }, q.2)
  | none => (s1, none)

/-- The 0.1.1 / 0.2.0 registry-level show: as 0.1.0 but a missing instance
emits a console.warn diagnostic. -/
def show2 (s : MPState) (r : Ref) : MPState × Option JsError :=
  let res := _getTargetId s r
  let s1 := res.2
  match regFind s1.popups (keyOf res.1) with
  | some p =>
    let q := p.show s1.dom
    ({ s1 with dom := q.1 }, q.2)
  | none => ({ s1 with warnCount := s1.warnCount + 1 }, none)

/-- The 0.1.1 / 0.2.0 registry-level hide. -/
def hide2 (s : MPState) (r : Ref) : MPState × Option JsError :=
  let res := _getTargetId s r
  let s1 := res.2
  match regFind s1.popups (keyOf res.1) with
  | some p =>
    let q := p.hide s1.dom
    ({ s1 with dom := q.1 }, q.2)
  | none => ({ s1 with warnCount := s1.warnCount + 1 }, none)

/-- The 0.1.1 / 0.2.0 registry-level toggle. -/
def toggle2 (s : MPState) (r : Ref) : MPState × Option JsError :=
  let res := _getTargetId s r
  let s1 := res.2
  match regFind s1.popups (keyOf res.1) with
  | some p =>
    let q := p.toggle s1.dom
    ({ s1 with dom := q.1 }, q.2)
  | none => ({ s1 with warnCount := s1.warnCount + 1 }, none)

/-- A caller-supplied patch of the options object, merged by Object.assign in
the 0.2.0 init. -/
structure OptionsPatch where
  openTrigger : Option String := none
  identifier : Option String := none
  libraryAttribute : Option String := none
  debugMode : Option Bool := none
  openClass : Option String := none
deriving DecidableEq

/-- Object.assign(options, config) over the recognized option keys. -/
def applyPatch (o : Options) (p : OptionsPatch) : Options :=
  { openTrigger := p.openTrigger.getD o.openTrigger,
    identifier := p.identifier.getD o.identifier,
    libraryAttribute := p.libraryAttribute.getD o.libraryAttribute,
    debugMode := p.debugMode.getD o.debugMode,
    openClass := p.openClass.getD o.openClass }

/-- document.querySelectorAll over an attribute selector: every element
carrying the attribute, in document order, as a static snapshot. -/
def queryTriggers (d : DOM) (attr : String) : List Nat :=
  (d.elems.filter (fun p => (getA p.2.attrs attr).isSome)).map (fun p => p.1)

/-- The inner forEach of the 0.2.0 init: for each role token of one trigger,
read the role-namespaced target attribute; a falsy target skips the token,
otherwise initPopup runs with that target id, the single trigger and the
token as role.  An exception aborts the iteration (it propagates out of
forEach), leaving the state mutated so far. -/
def initTokens (t : Nat) : MPState → List String → MPState × Option JsError
  | s, [] => (s, none)
  | s, tok :: rest =>
    let tid := getAttrOf s.dom t (s.options.libraryAttribute ++ "-" ++ tok)
    if truthyS tid then
      match initPopup2 s { popup := some (.str (tid.getD "")),
                           triggers := some (.single t), role := some tok } with
      | (.error e, s1) => (s1, some e)
      | (.ok _, s1) => initTokens t s1 rest
    else initTokens t s rest

/-- The outer forEach of the 0.2.0 init: per trigger, split its open-trigger
attribute on single spaces into role tokens and process them.  (Triggers come
from the query, so the attribute is present; reading null would throw through
null.split, modelled by the typeError arm.) -/
def initTrigs : MPState → List Nat → MPState × Option JsError
  | s, [] => (s, none)
  | s, t :: rest =>
    match getAttrOf s.dom t s.options.openTrigger with
    | none => (s, some JsError.typeError)
    | some v =>
      match initTokens t s (splitSp v) with
      | (s1, some e) => (s1, some e)
      | (s1, none) => initTrigs s1 rest

/-- The 0.2.0 init (auto-discovery): merge the caller options into the
process-wide options, snapshot every element carrying the open-trigger
attribute, and wire one popup per (trigger, role token) pair. -/
def init2 (s : MPState) (patch : OptionsPatch) : MPState × Option JsError :=
  let s0 := { s with options := applyPatch s.options patch }
  initTrigs s0 (queryTriggers s0.dom s0.options.openTrigger)

/-- Decidable equality for Except, so concrete runs can be checked by decide. -/
def exceptDecEq {ε α : Type} [DecidableEq ε] [DecidableEq α] :
    (a b : Except ε α) → Decidable (a = b)
  | .ok a, .ok b =>
    if h : a = b then isTrue (by rw [h]) else isFalse (by intro q; injection q; contradiction)
  | .ok _, .error _ => isFalse (by intro q; exact Except.noConfusion q)
  | .error _, .ok _ => isFalse (by intro q; exact Except.noConfusion q)
  | .error e, .error f =>
    if h : e = f then isTrue (by rw [h]) else isFalse (by intro q; injection q; contradiction)

instance {ε α : Type} [DecidableEq ε] [DecidableEq α] : DecidableEq (Except ε α) := exceptDecEq

/-- One of the three instance methods, for reasoning about call sequences. -/
inductive PopAction where
  | show : PopAction
  | hide : PopAction
  | toggle : PopAction
deriving DecidableEq

/-- The document after one instance-method call (the document a throwing call
leaves behind is the partially mutated one). -/
def applyAct (p : PopupInst) (d : DOM) : PopAction → DOM
  | .show => (p.show d).1
  | .hide => (p.hide d).1
  | .toggle => (p.toggle d).1

/-- The document after a sequence of instance-method calls. -/
def runActs (p : PopupInst) : DOM → List PopAction → DOM
  | d, [] => d
  | d, a :: rest => runActs p (applyAct p d a) rest

/-- The lock-step relation of claim C4: the aria-hidden attribute reads true
exactly when the open class is absent from the display element. -/
def lockstep (p : PopupInst) (d : DOM) : Prop :=
  (getAttrOf d p.popupEl "aria-hidden" = some "true") ↔ p.openClass ∉ classesOf d p.popupEl

/-- A two-element document: a blank popup element 0 and a blank trigger 1. -/
def d6w : DOM := ⟨[(0, {}), (1, {})]⟩

/-- A popup on element 0 with the single trigger 1. -/
def p6w : PopupInst := ⟨0, 0, [1], "is-open", none, [(1, none)]⟩

/-- A document with a single blank element. -/
def d6c : DOM := ⟨[(0, {})]⟩

/-- A configuration with an explicit display element and no triggers. -/
def cfg6c : PopupCfg := { popup := some (.elem 0) }

/-- A document whose popup element already carries the open class before
construction. -/
def d4c : DOM := ⟨[(0, { classes := ["is-open"] }), (1, {})]⟩

/-- A popup on element 0 with the single trigger 1. -/
def p4 : PopupInst := ⟨0, 0, [1], "is-open", none, [(1, none)]⟩

/-- A clean two-element document for the C4 witness. -/
def d4w : DOM := ⟨[(0, {}), (1, {})]⟩

/-- A library state whose document has a blank element, an element with a
stamped identifier attribute and an element with a native id. -/
def s2w : MPState :=
  { dom := ⟨[(0, {}), (1, { attrs := [("data-micropop-id", "x")] }),
             (2, { attrs := [("id", "tip")] })]⟩ }

/-- A library state whose element 0 carries a present-but-empty identifier
attribute next to a non-empty native id. -/
def s2c : MPState :=
  { dom := ⟨[(0, { attrs := [("data-micropop-id", ""), ("id", "real")] })]⟩ }

/-- The empty document. -/
def d7 : DOM := ⟨[]⟩

/-- A configuration whose display reference is a string matching no element. -/
def cfg7 : PopupCfg := { popup := some (.str "nope") }

/-- A document whose only element carries the open class up front. -/
def d5c : DOM := ⟨[(0, { classes := ["is-open"] })]⟩

/-- A configuration selecting element 0 as display element. -/
def cfg5 : PopupCfg := { popup := some (.elem 0) }

/-- A document with a decorated popup element and a blank trigger. -/
def d5w : DOM := ⟨[(0, { attrs := [("stale", "x")], classes := ["pre"] }), (1, {})]⟩

/-- A configuration with explicit display element, one trigger and dialog role. -/
def cfg5w : PopupCfg := { popup := some (.elem 0), triggers := .arr [1], role := some "dialog" }

/-- The instance the 0.2.0 constructor builds from cfg5w on d5w. -/
def p5w : PopupInst := ⟨0, 0, [1], "is-open", some "dialog", [(1, some "dialog")]⟩

/-- A library state with one blank element and an empty registry. -/
def s8 : MPState := { dom := ⟨[(0, {})]⟩ }

/-- A library state with two blank elements and an empty registry. -/
def s10 : MPState := { dom := ⟨[(0, {}), (1, {})]⟩ }

/-- A library state whose document holds one element with native id p1. -/
def s1c : MPState := { dom := ⟨[(0, { attrs := [("id", "p1")] })]⟩ }

/-- The initPopup configuration addressing p1 by string. -/
def cfg1 : InitConfig := { popup := some (.str "p1") }

/-- The instance the first 0.1.0 initPopup call on s1c registers. -/
def p1c : PopupInst := ⟨0, 0, [], "is-open", none, []⟩

/-- A library state whose document holds one element with native id q1. -/
def s1w0 : MPState := { dom := ⟨[(0, { attrs := [("id", "q1")] })]⟩ }

/-- The initPopup configuration addressing q1 by string. -/
def cfg1w : InitConfig := { popup := some (.str "q1") }

/-- The state after a first 0.2.0 initPopup call on s1w0. -/
def s1w : MPState := (initPopup2 s1w0 cfg1w).2

/-- The instance that first call registers. -/
def p1w : PopupInst := ⟨0, 0, [], "is-open", none, []⟩

/-- A document for discovery: trigger 0 declares the roles tooltip and dialog
with targets tip1 and dlg1, elements 1 and 2 carry those native ids. -/
def s9 : MPState :=
  { dom := ⟨[
      (0, { attrs := [("data-micropop-trigger", "tooltip dialog"),
                      ("data-micropop-tooltip", "tip1"),
                      ("data-micropop-dialog", "dlg1")] }),
      (1, { attrs := [("id", "tip1")] }),
      (2, { attrs := [("id", "dlg1")] })]⟩ }

/-- Attribute lookup after an overwrite of the same name. -/
theorem getA_setA_self (a : List (String × String)) (n v : String) :
    getA (setA a n v) n = some v := by
  induction a with
  | nil => simp [getA, setA]
  | cons p rest ih =>
    by_cases hp : p.1 = n
    · simp [setA, hp, getA]
    · simp [setA, hp, getA, ih]

/-- Attribute lookup after an overwrite of a different name. -/
theorem getA_setA_ne (a : List (String × String)) (n v n' : String) (hne : n' ≠ n) :
    getA (setA a n v) n' = getA a n' := by
  induction a with
  | nil => simp [getA, setA, Ne.symm hne]
  | cons p rest ih =>
    by_cases hp : p.1 = n
    · simp [setA, hp, getA, Ne.symm hne]
    · by_cases hq : p.1 = n'
      · simp [setA, hp, getA, hq, hne]
      · simp [setA, hp, getA, hq, ih]

/-- Overwriting an attribute twice with the same value is one overwrite. -/
theorem setA_setA_self (a : List (String × String)) (n v : String) :
    setA (setA a n v) n v = setA a n v := by
  induction a with
  | nil => simp [setA]
  | cons p rest ih =>
    by_cases hp : p.1 = n
    · simp [setA, hp]
    · simp [setA, hp, ih]

/-- Element lookup after an update of the same handle. -/
theorem findL_updL_self (l : List (Nat × Element)) (h : Nat) (f : Element → Element) :
    findL (updL h f l) h = (findL l h).map f := by
  induction l with
  | nil => simp [findL, updL]
  | cons p rest ih =>
    by_cases hp : p.1 = h
    · simp [updL, hp, findL]
    · simp [updL, hp, findL, ih]

/-- Element lookup after an update of a different handle. -/
theorem findL_updL_ne (l : List (Nat × Element)) (h : Nat) (f : Element → Element)
    (h' : Nat) (hne : h' ≠ h) :
    findL (updL h f l) h' = findL l h' := by
  induction l with
  | nil => simp [findL, updL]
  | cons p rest ih =>
    by_cases hp : p.1 = h
    · simp [updL, hp, findL, Ne.symm hne, ih]
    · by_cases hq : p.1 = h'
      · simp [updL, hp, findL, hq, hne]
      · simp [updL, hp, findL, hq, ih]

/-- Updating an absent handle changes nothing. -/
theorem updL_absent (l : List (Nat × Element)) (h : Nat) (f : Element → Element)
    (habs : findL l h = none) : updL h f l = l := by
  induction l with
  | nil => simp [updL]
  | cons p rest ih =>
    by_cases hp : p.1 = h
    · simp [findL, hp] at habs
    · simp [findL, hp] at habs
      simp [updL, hp, ih habs]

/-- Two updates of the same handle compose. -/
theorem updL_updL (l : List (Nat × Element)) (h : Nat) (f g : Element → Element) :
    updL h g (updL h f l) = updL h (fun e => g (f e)) l := by
  induction l with
  | nil => simp [updL]
  | cons p rest ih =>
    by_cases hp : p.1 = h
    · simp [updL, hp, ih]
    · simp [updL, hp, ih]

/-- An element-by-id scan is unchanged by an update that keeps id attributes. -/
theorem byIdL_updL (l : List (Nat × Element)) (h : Nat) (f : Element → Element) (s : String)
    (hid : ∀ e, getA (f e).attrs "id" = getA e.attrs "id") :
    byIdL (updL h f l) s = byIdL l s := by
  induction l with
  | nil => simp [byIdL, updL]
  | cons p rest ih =>
    by_cases hp : p.1 = h
    · simp [updL, hp, byIdL, hid, ih]
    · simp [updL, hp, byIdL, ih]

/-- A successful element-by-id scan yields a live handle. -/
theorem byIdL_found (l : List (Nat × Element)) (s : String) (h : Nat)
    (hfound : byIdL l s = some h) : (findL l h).isSome = true := by
  induction l with
  | nil => simp [byIdL] at hfound
  | cons p rest ih =>
    by_cases hp : getA p.2.attrs "id" = some s
    · simp [byIdL, hp] at hfound
      simp [findL, hfound]
    · simp [byIdL, hp] at hfound
      by_cases hq : p.1 = h
      · simp [findL, hq]
      · simp [findL, hq, ih hfound]

/-- getElem? after an update of the same handle. -/
theorem getElem?_update_self (d : DOM) (h : Nat) (f : Element → Element) :
    (d.update h f).getElem? h = (d.getElem? h).map f := by
  simp [DOM.getElem?, DOM.update, findL_updL_self]

/-- getElem? after an update of a different handle. -/
theorem getElem?_update_ne (d : DOM) (h : Nat) (f : Element → Element) (h' : Nat)
    (hne : h' ≠ h) : (d.update h f).getElem? h' = d.getElem? h' := by
  simp [DOM.getElem?, DOM.update, findL_updL_ne _ _ _ _ hne]

/-- Updating an absent handle leaves the document unchanged. -/
theorem update_absent (d : DOM) (h : Nat) (f : Element → Element)
    (habs : d.has h = false) : d.update h f = d := by
  obtain ⟨els⟩ := d
  simp [DOM.has, DOM.getElem?, Option.isSome] at habs
  rcases hfind : findL els h with _ | e
  · simp [DOM.update, updL_absent els h f hfind]
  · rw [hfind] at habs; simp at habs

/-- Element presence is invariant under every update. -/
theorem has_update (d : DOM) (h : Nat) (f : Element → Element) (h' : Nat) :
    (d.update h f).has h' = d.has h' := by
  by_cases hq : h' = h
  · subst hq; simp [DOM.has, getElem?_update_self]
  · simp [DOM.has, getElem?_update_ne _ _ _ _ hq]

/-- Reading the attribute just written. -/
theorem getAttrOf_setAttrOf_self (d : DOM) (h : Nat) (n v : String)
    (hhas : d.has h = true) : getAttrOf (setAttrOf d h n v) h n = some v := by
  simp [DOM.has, Option.isSome_iff_exists] at hhas
  obtain ⟨e, he⟩ := hhas
  simp [getAttrOf, setAttrOf, getElem?_update_self, he, getA_setA_self]

/-- Reading another attribute name after a write. -/
theorem getAttrOf_setAttrOf_ne_name (d : DOM) (h : Nat) (n v : String) (h' : Nat) (n' : String)
    (hne : n' ≠ n) : getAttrOf (setAttrOf d h n v) h' n' = getAttrOf d h' n' := by
  by_cases hq : h' = h
  · subst hq
    rcases he : d.getElem? h' with _ | e
    · simp [getAttrOf, setAttrOf, getElem?_update_self, he]
    · simp [getAttrOf, setAttrOf, getElem?_update_self, he, getA_setA_ne _ _ _ _ hne]
  · simp [getAttrOf, setAttrOf, getElem?_update_ne _ _ _ _ hq]

/-- Reading an attribute of another element after a write. -/
theorem getAttrOf_setAttrOf_ne_handle (d : DOM) (h : Nat) (n v : String) (h' : Nat) (n' : String)
    (hne : h' ≠ h) : getAttrOf (setAttrOf d h n v) h' n' = getAttrOf d h' n' := by
  simp [getAttrOf, setAttrOf, getElem?_update_ne _ _ _ _ hne]

/-- Writing the same attribute value twice is one write. -/
theorem setAttrOf_setAttrOf_self (d : DOM) (h : Nat) (n v : String) :
    setAttrOf (setAttrOf d h n v) h n v = setAttrOf d h n v := by
  obtain ⟨els⟩ := d
  simp [setAttrOf, DOM.update, updL_updL]
  congr 1
  funext e
  simp [setA_setA_self]

/-- Class lists are untouched by attribute writes. -/
theorem classesOf_setAttrOf (d : DOM) (h : Nat) (n v : String) (h' : Nat) :
    classesOf (setAttrOf d h n v) h' = classesOf d h' := by
  by_cases hq : h' = h
  · subst hq
    rcases he : d.getElem? h' with _ | e <;>
      simp [classesOf, setAttrOf, getElem?_update_self, he]
  · simp [classesOf, setAttrOf, getElem?_update_ne _ _ _ _ hq]

/-- Class lists are untouched by listener registration. -/
theorem classesOf_addListenerOf (d : DOM) (h : Nat) (l : Listener) (h' : Nat) :
    classesOf (addListenerOf d h l) h' = classesOf d h' := by
  by_cases hq : h' = h
  · subst hq
    rcases he : d.getElem? h' with _ | e <;>
      simp [classesOf, addListenerOf, getElem?_update_self, he]
  · simp [classesOf, addListenerOf, getElem?_update_ne _ _ _ _ hq]

/-- Attributes are untouched by classList.add. -/
theorem getAttrOf_classAddOf (d : DOM) (h : Nat) (c : String) (h' : Nat) (n' : String) :
    getAttrOf (classAddOf d h c) h' n' = getAttrOf d h' n' := by
  by_cases hq : h' = h
  · subst hq
    rcases he : d.getElem? h' with _ | e <;>
      simp [getAttrOf, classAddOf, getElem?_update_self, he]
  · simp [getAttrOf, classAddOf, getElem?_update_ne _ _ _ _ hq]

/-- Attributes are untouched by classList.remove. -/
theorem getAttrOf_classRemoveOf (d : DOM) (h : Nat) (c : String) (h' : Nat) (n' : String) :
    getAttrOf (classRemoveOf d h c) h' n' = getAttrOf d h' n' := by
  by_cases hq : h' = h
  · subst hq
    rcases he : d.getElem? h' with _ | e <;>
      simp [getAttrOf, classRemoveOf, getElem?_update_self, he]
  · simp [getAttrOf, classRemoveOf, getElem?_update_ne _ _ _ _ hq]

/-- Attributes are untouched by listener registration. -/
theorem getAttrOf_addListenerOf (d : DOM) (h : Nat) (l : Listener) (h' : Nat) (n' : String) :
    getAttrOf (addListenerOf d h l) h' n' = getAttrOf d h' n' := by
  by_cases hq : h' = h
  · subst hq
    rcases he : d.getElem? h' with _ | e <;>
      simp [getAttrOf, addListenerOf, getElem?_update_self, he]
  · simp [getAttrOf, addListenerOf, getElem?_update_ne _ _ _ _ hq]

/-- Listener lists are untouched by attribute writes. -/
theorem listenersOf_setAttrOf (d : DOM) (h : Nat) (n v : String) (h' : Nat) :
    listenersOf (setAttrOf d h n v) h' = listenersOf d h' := by
  by_cases hq : h' = h
  · subst hq
    rcases he : d.getElem? h' with _ | e <;>
      simp [listenersOf, setAttrOf, getElem?_update_self, he]
  · simp [listenersOf, setAttrOf, getElem?_update_ne _ _ _ _ hq]

/-- The class list after classList.add on a live element contains the token. -/
theorem mem_classAddOf_self (d : DOM) (h : Nat) (c : String) (hhas : d.has h = true) :
    c ∈ classesOf (classAddOf d h c) h := by
  simp [DOM.has, Option.isSome_iff_exists] at hhas
  obtain ⟨e, he⟩ := hhas
  by_cases hc : c ∈ e.classes <;>
    simp [classesOf, classAddOf, getElem?_update_self, he, hc]

/-- The class list after classList.remove never contains the token. -/
theorem not_mem_classRemoveOf_self (d : DOM) (h : Nat) (c : String) :
    c ∉ classesOf (classRemoveOf d h c) h := by
  rcases he : d.getElem? h with _ | e <;>
    simp [classesOf, classRemoveOf, getElem?_update_self, he]

/-- getElementById ignores attribute writes under any name other than id. -/
theorem getElementById_setAttrOf (d : DOM) (h : Nat) (n v : String) (s : String)
    (hne : n ≠ "id") : getElementById (setAttrOf d h n v) s = getElementById d s := by
  obtain ⟨els⟩ := d
  by_cases hs : s = ""
  · simp [getElementById, hs]
  · simp [getElementById, setAttrOf, DOM.update, hs]
    exact byIdL_updL els h _ s (fun e => getA_setA_ne e.attrs n v "id" (Ne.symm hne))

/-- getElementById ignores listener registration. -/
theorem getElementById_addListenerOf (d : DOM) (h : Nat) (l : Listener) (s : String) :
    getElementById (addListenerOf d h l) s = getElementById d s := by
  obtain ⟨els⟩ := d
  by_cases hs : s = ""
  · simp [getElementById, hs]
  · simp [getElementById, addListenerOf, DOM.update, hs]
    exact byIdL_updL els h _ s (fun e => rfl)

/-- A getElementById hit is a live handle. -/
theorem getElementById_has (d : DOM) (s : String) (h : Nat)
    (hfound : getElementById d s = some h) : d.has h = true := by
  obtain ⟨els⟩ := d
  by_cases hs : s = ""
  · simp [getElementById, hs] at hfound
  · simp [getElementById, hs] at hfound
    simpa [DOM.has, DOM.getElem?] using byIdL_found els s h hfound

/-- Element presence survives attribute writes. -/
theorem has_setAttrOf (d : DOM) (h : Nat) (n v : String) (h' : Nat) :
    (setAttrOf d h n v).has h' = d.has h' := has_update d h _ h'

/-- Element presence survives classList.add. -/
theorem has_classAddOf (d : DOM) (h : Nat) (c : String) (h' : Nat) :
    (classAddOf d h c).has h' = d.has h' := has_update d h _ h'

/-- Element presence survives classList.remove. -/
theorem has_classRemoveOf (d : DOM) (h : Nat) (c : String) (h' : Nat) :
    (classRemoveOf d h c).has h' = d.has h' := has_update d h _ h'

/-- Element presence survives listener registration. -/
theorem has_addListenerOf (d : DOM) (h : Nat) (l : Listener) (h' : Nat) :
    (addListenerOf d h l).has h' = d.has h' := has_update d h _ h'

/-- Registry lookup across an appended entry. -/
theorem regFind_append (l : List (String × PopupInst)) (k : String) (p : PopupInst)
    (k' : String) :
    regFind (l ++ [(k, p)]) k' =
      match regFind l k' with
      | some q => some q
      | none => if k' = k then some p else none := by
  induction l with
  | nil =>
    by_cases hk : k' = k
    · simp [regFind, hk]
    · simp [regFind, hk, Ne.symm hk]
  | cons q rest ih =>
    by_cases hq : q.1 = k' <;> simp [regFind, hq, ih]

/-- Running show twice starting from any document yields the document a single
show yields, whether or not the run throws along the way. -/
theorem show_step_idem (p : PopupInst) (d : DOM) :
    (p.show (p.show d).1).1 = (p.show d).1 := by
  by_cases hvis : getAttrOf d p.popupEl "aria-hidden" = some "false"
  · simp [PopupInst.show, hvis]
  · by_cases hhas : d.has p.popupEl
    · have h1 : getAttrOf (setAttrOf d p.popupEl "aria-hidden" "false") p.popupEl "aria-hidden"
          = some "false" := getAttrOf_setAttrOf_self d p.popupEl _ _ hhas
      cases ht : p.triggers.head? with
      | none => simp [PopupInst.show, hvis, ht, h1]
      | some t =>
        by_cases hvt : validToken p.openClass
        · have h2 : getAttrOf (classAddOf (setAttrOf
              (setAttrOf d p.popupEl "aria-hidden" "false") t "aria-expanded" "true")
              p.popupEl p.openClass) p.popupEl "aria-hidden" = some "false" := by
            rw [getAttrOf_classAddOf,
              getAttrOf_setAttrOf_ne_name _ _ _ _ _ _ (by decide), h1]
          simp [PopupInst.show, hvis, ht, hvt, h2]
        · have h2 : getAttrOf (setAttrOf
              (setAttrOf d p.popupEl "aria-hidden" "false") t "aria-expanded" "true")
              p.popupEl "aria-hidden" = some "false" := by
            rw [getAttrOf_setAttrOf_ne_name _ _ _ _ _ _ (by decide), h1]
          simp [PopupInst.show, hvis, ht, hvt, h2]
    · have habs : d.has p.popupEl = false := by simpa using hhas
      have hd1 : setAttrOf d p.popupEl "aria-hidden" "false" = d := update_absent d _ _ habs
      cases ht : p.triggers.head? with
      | none => simp [PopupInst.show, hvis, ht, hd1]
      | some t =>
        have hvis2 : ¬ (getAttrOf (setAttrOf d t "aria-expanded" "true") p.popupEl "aria-hidden"
            = some "false") := by
          rw [getAttrOf_setAttrOf_ne_name _ _ _ _ _ _ (by decide)]; exact hvis
        have habs2 : (setAttrOf d t "aria-expanded" "true").has p.popupEl = false := by
          rw [has_setAttrOf]; exact habs
        have hst : setAttrOf (setAttrOf d t "aria-expanded" "true") t "aria-expanded" "true"
            = setAttrOf d t "aria-expanded" "true" := setAttrOf_setAttrOf_self d t _ _
        have hd1b : setAttrOf (setAttrOf d t "aria-expanded" "true") p.popupEl
            "aria-hidden" "false" = setAttrOf d t "aria-expanded" "true" :=
          update_absent _ _ _ habs2
        by_cases hvt : validToken p.openClass
        · have hca : classAddOf (setAttrOf d t "aria-expanded" "true") p.popupEl p.openClass
              = setAttrOf d t "aria-expanded" "true" := update_absent _ _ _ habs2
          simp [PopupInst.show, hvis, ht, hvt, hd1, hca, hvis2, hd1b, hst]
        · simp [PopupInst.show, hvis, ht, hvt, hd1, hvis2, hd1b, hst]

/-- Running hide twice starting from any document yields the document a single
hide yields, whether or not the run throws along the way. -/
theorem hide_step_idem (p : PopupInst) (d : DOM) :
    (p.hide (p.hide d).1).1 = (p.hide d).1 := by
  by_cases hvis : getAttrOf d p.popupEl "aria-hidden" = some "true"
  · simp [PopupInst.hide, hvis]
  · by_cases hhas : d.has p.popupEl
    · have h1 : getAttrOf (setAttrOf d p.popupEl "aria-hidden" "true") p.popupEl "aria-hidden"
          = some "true" := getAttrOf_setAttrOf_self d p.popupEl _ _ hhas
      cases ht : p.triggers.head? with
      | none => simp [PopupInst.hide, hvis, ht, h1]
      | some t =>
        by_cases hvt : validToken p.openClass
        · have h2 : getAttrOf (classRemoveOf (setAttrOf
              (setAttrOf d p.popupEl "aria-hidden" "true") t "aria-expanded" "false")
              p.popupEl p.openClass) p.popupEl "aria-hidden" = some "true" := by
            rw [getAttrOf_classRemoveOf,
              getAttrOf_setAttrOf_ne_name _ _ _ _ _ _ (by decide), h1]
          simp [PopupInst.hide, hvis, ht, hvt, h2]
        · have h2 : getAttrOf (setAttrOf
              (setAttrOf d p.popupEl "aria-hidden" "true") t "aria-expanded" "false")
              p.popupEl "aria-hidden" = some "true" := by
            rw [getAttrOf_setAttrOf_ne_name _ _ _ _ _ _ (by decide), h1]
          simp [PopupInst.hide, hvis, ht, hvt, h2]
    · have habs : d.has p.popupEl = false := by simpa using hhas
      have hd1 : setAttrOf d p.popupEl "aria-hidden" "true" = d := update_absent d _ _ habs
      cases ht : p.triggers.head? with
      | none => simp [PopupInst.hide, hvis, ht, hd1]
      | some t =>
        have hvis2 : ¬ (getAttrOf (setAttrOf d t "aria-expanded" "false") p.popupEl "aria-hidden"
            = some "true") := by
          rw [getAttrOf_setAttrOf_ne_name _ _ _ _ _ _ (by decide)]; exact hvis
        have habs2 : (setAttrOf d t "aria-expanded" "false").has p.popupEl = false := by
          rw [has_setAttrOf]; exact habs
        have hst : setAttrOf (setAttrOf d t "aria-expanded" "false") t "aria-expanded" "false"
            = setAttrOf d t "aria-expanded" "false" := setAttrOf_setAttrOf_self d t _ _
        have hd1b : setAttrOf (setAttrOf d t "aria-expanded" "false") p.popupEl
            "aria-hidden" "true" = setAttrOf d t "aria-expanded" "false" :=
          update_absent _ _ _ habs2
        by_cases hvt : validToken p.openClass
        · have hca : classRemoveOf (setAttrOf d t "aria-expanded" "false") p.popupEl p.openClass
              = setAttrOf d t "aria-expanded" "false" := update_absent _ _ _ habs2
          simp [PopupInst.hide, hvis, ht, hvt, hd1, hca, hvis2, hd1b, hst]
        · simp [PopupInst.hide, hvis, ht, hvt, hd1, hvis2, hd1b, hst]

/-- Claim C6 (amended): for every Popup with at least one trigger and a valid
open-class token, show(), hide() and toggle() never raise, whatever the
document state.  (With an empty trigger list, allowed at construction when an
explicit display element is given, show() from the hidden state throws a
TypeError: see the accompanying counterexample.) -/
theorem ops_never_raise (p : PopupInst) (d : DOM)
    (htr : p.triggers ≠ []) (hvt : validToken p.openClass = true) :
    (p.show d).2 = none ∧ (p.hide d).2 = none ∧ (p.toggle d).2 = none := by
  obtain ⟨t, rest, htc⟩ : ∃ t rest, p.triggers = t :: rest := by
    cases hc : p.triggers with
    | nil => exact absurd hc htr
    | cons a b => exact ⟨a, b, rfl⟩
  have hs : (p.show d).2 = none := by
    by_cases hvis : getAttrOf d p.popupEl "aria-hidden" = some "false" <;>
      simp [PopupInst.show, hvis, htc, hvt]
  have hh : (p.hide d).2 = none := by
    by_cases hvis : getAttrOf d p.popupEl "aria-hidden" = some "true" <;>
      simp [PopupInst.hide, hvis, htc, hvt]
  refine ⟨hs, hh, ?_⟩
  by_cases hvis : getAttrOf d p.popupEl "aria-hidden" = some "true" <;>
    simp [PopupInst.toggle, hvis, hs, hh]

/-- C6 witness: on a concrete popup with one trigger, none of the three
operations raises. -/
theorem ops_never_raise_witness :
    (p6w.show d6w).2 = none ∧ (p6w.hide d6w).2 = none ∧ (p6w.toggle d6w).2 = none :=
  ops_never_raise p6w d6w (by decide) (by decide)

/-- C6 counterexample: a Popup successfully constructed from an explicit
display element and an empty trigger list (exactly the configuration the claim
includes); its very first show() throws a TypeError, because
this.triggers[0] is undefined. -/
theorem show_empty_triggers_raises :
    (construct2 dfltOptions d6c 0 cfg6c).map (fun r => ((r.1).show r.2).2)
      = .ok (some JsError.typeError) := by decide

/-- Claim C2 (amended): _getTargetId returns a string argument unchanged and
null for a non-string non-element argument; for an element it returns the
identifier attribute when that is present and non-empty (not merely present:
a present-but-empty attribute is skipped, see the counterexample), else a
non-empty native id, else the freshly generated micropop-n obtained by
incrementing the counter, which is also stamped onto the element's identifier
attribute. -/
theorem getTargetId_resolution (s : MPState) (h : Nat) (t : String) :
    (_getTargetId s (.str t) = (some t, s)) ∧
    (_getTargetId s .other = (none, s)) ∧
    (∀ v, getAttrOf s.dom h s.options.identifier = some v → v ≠ "" →
      _getTargetId s (.elem h) = (some v, s)) ∧
    (truthyS (getAttrOf s.dom h s.options.identifier) = false →
      elemNativeId s.dom h ≠ "" →
      _getTargetId s (.elem h) = (some (elemNativeId s.dom h), s)) ∧
    (truthyS (getAttrOf s.dom h s.options.identifier) = false →
      elemNativeId s.dom h = "" →
      _getTargetId s (.elem h) =
        (some ("micropop-" ++ toString (s.gen + 1)),
         { s with gen := s.gen + 1,
                  dom := setAttrOf s.dom h s.options.identifier
                    ("micropop-" ++ toString (s.gen + 1)) })) := by
  refine ⟨rfl, rfl, ?_, ?_, ?_⟩
  · intro v hv hne
    have htv : truthyS (some v) = true := by simp [truthyS, hne]
    simp [_getTargetId, hv, htv]
  · intro hfalse hid
    have h2 : (elemNativeId s.dom h != "") = true := by simp [hid]
    simp [_getTargetId, hfalse, h2]
  · intro hfalse hid
    have h2 : (elemNativeId s.dom h != "") = false := by simp [hid]
    simp [_getTargetId, hfalse, h2]

/-- C2 witness: on a concrete state, all three element cases of the resolution
rule fire: generation with stamping on the blank element, the stamped
attribute on the second, the native id on the third. -/
theorem getTargetId_resolution_witness :
    (_getTargetId s2w (.elem 0) =
      (some ("micropop-" ++ toString (s2w.gen + 1)),
       { s2w with gen := s2w.gen + 1,
                  dom := setAttrOf s2w.dom 0 s2w.options.identifier
                    ("micropop-" ++ toString (s2w.gen + 1)) })) ∧
    (_getTargetId s2w (.elem 1) = (some "x", s2w)) ∧
    (_getTargetId s2w (.elem 2) = (some (elemNativeId s2w.dom 2), s2w)) :=
  ⟨(getTargetId_resolution s2w 0 "z").2.2.2.2 (by decide) (by decide),
   (getTargetId_resolution s2w 1 "z").2.2.1 "x" (by decide) (by decide),
   (getTargetId_resolution s2w 2 "z").2.2.2.1 (by decide) (by decide)⟩

/-- C2 counterexample: element 0 carries the identifier attribute (present,
value empty), yet _getTargetId skips it and returns the native id real, not
the attribute's value. -/
theorem getTargetId_empty_attr_counterexample :
    getAttrOf s2c.dom 0 "data-micropop-id" = some "" ∧
    _getTargetId s2c (.elem 0) = (some "real", s2c) ∧ ("real" : String) ≠ "" :=
  ⟨by decide, by decide, by decide⟩

/-- Claim C8: calling the registry-level show / hide / toggle with an
identifier string under which nothing is registered throws nothing, changes
no element and leaves the registry unchanged; the 0.1.1 / 0.2.0 revisions
increment only the warning count, the 0.1.0 revision changes nothing at all. -/
theorem registry_ops_missing_id (s : MPState) (t : String)
    (habs : regFind s.popups t = none) :
    show2 s (.str t) = ({ s with warnCount := s.warnCount + 1 }, none) ∧
    hide2 s (.str t) = ({ s with warnCount := s.warnCount + 1 }, none) ∧
    toggle2 s (.str t) = ({ s with warnCount := s.warnCount + 1 }, none) ∧
    show0 s (.str t) = (s, none) ∧
    hide0 s (.str t) = (s, none) ∧
    toggle0 s (.str t) = (s, none) := by
  refine ⟨?_, ?_, ?_, ?_, ?_, ?_⟩ <;>
    simp [show2, hide2, toggle2, show0, hide0, toggle0, _getTargetId, keyOf, habs]

/-- C8 witness: a concrete state with an empty registry and the identifier
ghost. -/
theorem registry_ops_missing_id_witness :
    show2 s8 (.str "ghost") = ({ s8 with warnCount := s8.warnCount + 1 }, none) ∧
    hide2 s8 (.str "ghost") = ({ s8 with warnCount := s8.warnCount + 1 }, none) ∧
    toggle2 s8 (.str "ghost") = ({ s8 with warnCount := s8.warnCount + 1 }, none) ∧
    show0 s8 (.str "ghost") = (s8, none) ∧
    hide0 s8 (.str "ghost") = (s8, none) ∧
    toggle0 s8 (.str "ghost") = (s8, none) :=
  registry_ops_missing_id s8 "ghost" (by decide)

/-- attachTrigger writes no attribute other than role. -/
theorem getAttrOf_attachTrigger (pe i : Nat) (d : DOM) (tc : Nat × Option String)
    (h : Nat) (n : String) (hn : n ≠ "role") :
    getAttrOf (attachTrigger pe i d tc) h n = getAttrOf d h n := by
  rcases tc with ⟨t, r⟩
  rcases r with _ | rv
  · rfl
  by_cases h1 : rv = "tooltip"
  · simp [attachTrigger, h1, getAttrOf_addListenerOf,
      getAttrOf_setAttrOf_ne_name _ _ _ _ _ _ hn]
  by_cases h2 : rv = "dialog"
  · simp [attachTrigger, h1, h2, getAttrOf_addListenerOf,
      getAttrOf_setAttrOf_ne_name _ _ _ _ _ _ hn]
  · simp [attachTrigger, h1, h2]

/-- attachTrigger touches no class list. -/
theorem classesOf_attachTrigger (pe i : Nat) (d : DOM) (tc : Nat × Option String) (h : Nat) :
    classesOf (attachTrigger pe i d tc) h = classesOf d h := by
  rcases tc with ⟨t, r⟩
  rcases r with _ | rv
  · rfl
  by_cases h1 : rv = "tooltip"
  · simp [attachTrigger, h1, classesOf_addListenerOf, classesOf_setAttrOf]
  by_cases h2 : rv = "dialog"
  · simp [attachTrigger, h1, h2, classesOf_addListenerOf, classesOf_setAttrOf]
  · simp [attachTrigger, h1, h2]

/-- attachTrigger preserves element presence. -/
theorem has_attachTrigger (pe i : Nat) (d : DOM) (tc : Nat × Option String) (h : Nat) :
    (attachTrigger pe i d tc).has h = d.has h := by
  rcases tc with ⟨t, r⟩
  rcases r with _ | rv
  · rfl
  by_cases h1 : rv = "tooltip"
  · simp [attachTrigger, h1, has_addListenerOf, has_setAttrOf]
  by_cases h2 : rv = "dialog"
  · simp [attachTrigger, h1, h2, has_addListenerOf, has_setAttrOf]
  · simp [attachTrigger, h1, h2]

/-- Folding the listener attachment over trigger configurations writes no
attribute other than role. -/
theorem getAttrOf_attachFold (pe i : Nat) (tcs : List (Nat × Option String)) (d : DOM)
    (h : Nat) (n : String) (hn : n ≠ "role") :
    getAttrOf (tcs.foldl (attachTrigger pe i) d) h n = getAttrOf d h n := by
  induction tcs generalizing d with
  | nil => rfl
  | cons tc rest ih =>
    rw [List.foldl_cons, ih, getAttrOf_attachTrigger _ _ _ _ _ _ hn]

/-- Folding the listener attachment touches no class list. -/
theorem classesOf_attachFold (pe i : Nat) (tcs : List (Nat × Option String)) (d : DOM)
    (h : Nat) :
    classesOf (tcs.foldl (attachTrigger pe i) d) h = classesOf d h := by
  induction tcs generalizing d with
  | nil => rfl
  | cons tc rest ih =>
    rw [List.foldl_cons, ih, classesOf_attachTrigger]

/-- Folding the listener attachment preserves element presence. -/
theorem has_attachFold (pe i : Nat) (tcs : List (Nat × Option String)) (d : DOM) (h : Nat) :
    (tcs.foldl (attachTrigger pe i)  d).has h = d.has h := by
  induction tcs generalizing d with
  | nil => rfl
  | cons tc rest ih =>
    rw [List.foldl_cons, ih, has_attachTrigger]

/-- After the aria-attribute block of _init: the three attributes read as set
and the class list is untouched. -/
theorem initAria_spec (d : DOM) (pe : Nat) (hhas : d.has pe = true) :
    getAttrOf (initAria d pe) pe "aria-hidden" = some "true" ∧
    getAttrOf (initAria d pe) pe "aria-haspopup" = some "true" ∧
    getAttrOf (initAria d pe) pe "aria-expanded" = some "false" ∧
    classesOf (initAria d pe) pe = classesOf d pe := by
  have hhasA : (setAttrOf d pe "aria-haspopup" "true").has pe = true := by
    rw [has_setAttrOf]; exact hhas
  have hhasB : (setAttrOf (setAttrOf d pe "aria-haspopup" "true") pe
      "aria-expanded" "false").has pe = true := by
    rw [has_setAttrOf]; exact hhasA
  refine ⟨?_, ?_, ?_, ?_⟩
  · rw [initAria]
    exact getAttrOf_setAttrOf_self _ _ _ _ hhasB
  · rw [initAria, getAttrOf_setAttrOf_ne_name _ _ _ _ _ _ (by decide),
      getAttrOf_setAttrOf_ne_name _ _ _ _ _ _ (by decide)]
    exact getAttrOf_setAttrOf_self _ _ _ _ hhas
  · rw [initAria, getAttrOf_setAttrOf_ne_name _ _ _ _ _ _ (by decide)]
    exact getAttrOf_setAttrOf_self _ _ _ _ hhasA
  · rw [initAria, classesOf_setAttrOf, classesOf_setAttrOf, classesOf_setAttrOf]

/-- After the full 0.2.0 _init: the three aria attributes read as set and the
class list of the display element is exactly what it was before. -/
theorem initFull_spec (p : PopupInst) (d : DOM) (hhas : d.has p.popupEl = true) :
    getAttrOf (initFull p d) p.popupEl "aria-hidden" = some "true" ∧
    getAttrOf (initFull p d) p.popupEl "aria-haspopup" = some "true" ∧
    getAttrOf (initFull p d) p.popupEl "aria-expanded" = some "false" ∧
    classesOf (initFull p d) p.popupEl = classesOf d p.popupEl := by
  obtain ⟨h1, h2, h3, h4⟩ := initAria_spec d p.popupEl hhas
  refine ⟨?_, ?_, ?_, ?_⟩
  · rw [initFull, getAttrOf_attachFold _ _ _ _ _ _ (by decide)]; exact h1
  · rw [initFull, getAttrOf_attachFold _ _ _ _ _ _ (by decide)]; exact h2
  · rw [initFull, getAttrOf_attachFold _ _ _ _ _ _ (by decide)]; exact h3
  · rw [initFull, classesOf_attachFold]; exact h4

/-- A resolved display reference is a live element, given that every element
reference handed in is live. -/
theorem resolveRef_has (d : DOM) (r : Option Ref) (h : Nat)
    (hwf : ∀ h0, r = some (.elem h0) → d.has h0 = true)
    (hres : resolveRef d r = some h) : d.has h = true := by
  rcases r with _ | r
  · simp [resolveRef] at hres
  rcases r with sid | h0 | _
  · exact getElementById_has d sid h (by simpa [resolveRef] using hres)
  · have hh : h0 = h := by simpa [resolveRef] using hres
    rw [← hh]; exact hwf h0 rfl
  · simp [resolveRef] at hres

/-- A successful 0.1.0 construction yields the aria-initialized document and a
live display element. -/
theorem construct0_ok (d : DOM) (n : Nat) (cfg : PopupCfg) (p : PopupInst) (d' : DOM)
    (hwf : ∀ h0, cfg.popup = some (.elem h0) → d.has h0 = true)
    (hok : construct0 d n cfg = .ok (p, d')) :
    d' = initAria d p.popupEl ∧ d.has p.popupEl = true := by
  simp only [construct0] at hok
  split at hok
  · exact absurd hok (by simp)
  · split at hok
    · exact absurd hok (by simp)
    · rename_i heq
      obtain ⟨hp, hd⟩ : _ ∧ _ := by simpa using hok
      subst hp
      refine ⟨hd.symm, ?_⟩
      exact resolveRef_has d cfg.popup _ hwf heq

/-- A successful 0.1.1 construction yields the aria-initialized document and a
live display element. -/
theorem construct1_ok (d : DOM) (n : Nat) (cfg : PopupCfg) (p : PopupInst) (d' : DOM)
    (hwf : ∀ h0, cfg.popup = some (.elem h0) → d.has h0 = true)
    (hok : construct1 d n cfg = .ok (p, d')) :
    d' = initAria d p.popupEl ∧ d.has p.popupEl = true := by
  simp only [construct1] at hok
  split at hok
  · exact absurd hok (by simp)
  · split at hok
    · exact absurd hok (by simp)
    · rename_i heq
      split at hok
      · exact absurd hok (by simp)
      · obtain ⟨hp, hd⟩ : _ ∧ _ := by simpa using hok
        subst hp
        refine ⟨hd.symm, ?_⟩
        exact resolveRef_has d cfg.popup _ hwf heq

/-- A successful 0.2.0 construction yields the _init-processed document and a
live display element. -/
theorem construct2_ok (opts : Options) (d : DOM) (n : Nat) (cfg : PopupCfg)
    (p : PopupInst) (d' : DOM)
    (hwf : ∀ h0, cfg.popup = some (.elem h0) → d.has h0 = true)
    (hok : construct2 opts d n cfg = .ok (p, d')) :
    d' = initFull p d ∧ d.has p.popupEl = true := by
  simp only [construct2] at hok
  split at hok
  · exact absurd hok (by simp)
  · rename_i a b heq
    split at hok
    · exact absurd hok (by simp)
    · obtain ⟨hp, hd⟩ : _ ∧ _ := by simpa using hok
      subst hp
      refine ⟨hd.symm, ?_⟩
      by_cases hr : refTruthy cfg.popup = true
      · rw [if_pos hr] at heq
        obtain ⟨he1, -⟩ : _ ∧ _ := by simpa using heq
        exact resolveRef_has d cfg.popup _ hwf he1
      · rw [if_neg hr] at heq
        split at heq
        · exact absurd heq (by simp)
        · split at heq
          · exact absurd heq (by simp)
          · split at heq
            · exact absurd heq (by simp)
            · split at heq
              · obtain ⟨he1, -⟩ : _ ∧ _ := by simpa using heq
                exact getElementById_has _ _ _ he1
              · exact absurd heq (by simp)

/-- Claim C5 (amended): immediately after a successful construction, in every
revision, the display element reads aria-hidden=true, aria-haspopup=true and
aria-expanded=false regardless of its prior attributes, but its class list is
exactly the pre-construction one: construction never removes the configured
open class, so the element is free of it only when it already was (see the
counterexample). -/
theorem construction_initial_state (opts : Options) (d : DOM) (n : Nat) (cfg : PopupCfg)
    (p : PopupInst) (d' : DOM)
    (hwf : ∀ h0, cfg.popup = some (.elem h0) → d.has h0 = true) :
    (construct2 opts d n cfg = .ok (p, d') →
      getAttrOf d' p.popupEl "aria-hidden" = some "true" ∧
      getAttrOf d' p.popupEl "aria-haspopup" = some "true" ∧
      getAttrOf d' p.popupEl "aria-expanded" = some "false" ∧
      classesOf d' p.popupEl = classesOf d p.popupEl) ∧
    (construct0 d n cfg = .ok (p, d') →
      getAttrOf d' p.popupEl "aria-hidden" = some "true" ∧
      getAttrOf d' p.popupEl "aria-haspopup" = some "true" ∧
      getAttrOf d' p.popupEl "aria-expanded" = some "false" ∧
      classesOf d' p.popupEl = classesOf d p.popupEl) ∧
    (construct1 d n cfg = .ok (p, d') →
      getAttrOf d' p.popupEl "aria-hidden" = some "true" ∧
      getAttrOf d' p.popupEl "aria-haspopup" = some "true" ∧
      getAttrOf d' p.popupEl "aria-expanded" = some "false" ∧
      classesOf d' p.popupEl = classesOf d p.popupEl) := by
  refine ⟨fun hok => ?_, fun hok => ?_, fun hok => ?_⟩
  · obtain ⟨hd, hhas⟩ := construct2_ok opts d n cfg p d' hwf hok
    subst hd
    exact initFull_spec p d hhas
  · obtain ⟨hd, hhas⟩ := construct0_ok d n cfg p d' hwf hok
    subst hd
    exact initAria_spec d p.popupEl hhas
  · obtain ⟨hd, hhas⟩ := construct1_ok d n cfg p d' hwf hok
    subst hd
    exact initAria_spec d p.popupEl hhas

/-- C5 witness: a concrete 0.2.0 construction over a decorated element. -/
theorem construction_initial_state_witness :
    getAttrOf (initFull p5w d5w) p5w.popupEl "aria-hidden" = some "true" ∧
    getAttrOf (initFull p5w d5w) p5w.popupEl "aria-haspopup" = some "true" ∧
    getAttrOf (initFull p5w d5w) p5w.popupEl "aria-expanded" = some "false" ∧
    classesOf (initFull p5w d5w) p5w.popupEl = classesOf d5w p5w.popupEl :=
  (construction_initial_state dfltOptions d5w 0 cfg5w p5w (initFull p5w d5w)
    (by intro h0 hh; simp [cfg5w] at hh; subst hh; decide)).1 (by decide)

/-- C5 counterexample: element 0 enters construction already carrying the
open class is-open; construction succeeds and the class is still there, so a
freshly constructed Popup can carry the configured open class. -/
theorem init_preexisting_class_counterexample :
    (construct2 dfltOptions d5c 0 cfg5).map (fun r => classesOf r.2 r.1.popupEl)
      = .ok ["is-open"] := by decide

/-- Claim C10: calling the registry-level show / hide / toggle with an element
carrying neither the identifier attribute nor a non-empty native id, when the
freshly generated identifier is unregistered, stamps micropop-n onto the
element's identifier attribute (a DOM mutation) before finding no instance:
no other attribute and no class list changes, the registry is untouched, one
warning is emitted, and nothing is thrown. -/
theorem registry_ops_stamp_unregistered_element (s : MPState) (h : Nat)
    (hattr : getAttrOf s.dom h s.options.identifier = none)
    (hid : elemNativeId s.dom h = "")
    (hhas : s.dom.has h = true)
    (hreg : regFind s.popups ("micropop-" ++ toString (s.gen + 1)) = none) :
    show2 s (.elem h) =
      ({ s with gen := s.gen + 1,
                dom := setAttrOf s.dom h s.options.identifier
                  ("micropop-" ++ toString (s.gen + 1)),
                warnCount := s.warnCount + 1 }, none) ∧
    hide2 s (.elem h) =
      ({ s with gen := s.gen + 1,
                dom := setAttrOf s.dom h s.options.identifier
                  ("micropop-" ++ toString (s.gen + 1)),
                warnCount := s.warnCount + 1 }, none) ∧
    toggle2 s (.elem h) =
      ({ s with gen := s.gen + 1,
                dom := setAttrOf s.dom h s.options.identifier
                  ("micropop-" ++ toString (s.gen + 1)),
                warnCount := s.warnCount + 1 }, none) ∧
    getAttrOf (setAttrOf s.dom h s.options.identifier ("micropop-" ++ toString (s.gen + 1)))
      h s.options.identifier = some ("micropop-" ++ toString (s.gen + 1)) ∧
    (∀ h' n, n ≠ s.options.identifier →
      getAttrOf (setAttrOf s.dom h s.options.identifier ("micropop-" ++ toString (s.gen + 1)))
        h' n = getAttrOf s.dom h' n) ∧
    (∀ h', classesOf (setAttrOf s.dom h s.options.identifier
        ("micropop-" ++ toString (s.gen + 1))) h' = classesOf s.dom h') := by
  have h2 : (elemNativeId s.dom h != "") = false := by simp [hid]
  refine ⟨?_, ?_, ?_, getAttrOf_setAttrOf_self s.dom h _ _ hhas,
      fun h' n hn => getAttrOf_setAttrOf_ne_name s.dom h _ _ h' n hn,
      fun h' => classesOf_setAttrOf s.dom h _ _ h'⟩ <;>
    simp [show2, hide2, toggle2, _getTargetId, truthyS, hattr, h2, keyOf, hreg]

/-- C10 witness: a concrete blank element 0 in an empty registry. -/
theorem registry_ops_stamp_unregistered_element_witness :
    show2 s10 (.elem 0) =
      ({ s10 with gen := s10.gen + 1,
                  dom := setAttrOf s10.dom 0 s10.options.identifier
                    ("micropop-" ++ toString (s10.gen + 1)),
                  warnCount := s10.warnCount + 1 }, none) ∧
    hide2 s10 (.elem 0) =
      ({ s10 with gen := s10.gen + 1,
                  dom := setAttrOf s10.dom 0 s10.options.identifier
                    ("micropop-" ++ toString (s10.gen + 1)),
                  warnCount := s10.warnCount + 1 }, none) ∧
    toggle2 s10 (.elem 0) =
      ({ s10 with gen := s10.gen + 1,
                  dom := setAttrOf s10.dom 0 s10.options.identifier
                    ("micropop-" ++ toString (s10.gen + 1)),
                  warnCount := s10.warnCount + 1 }, none) ∧
    getAttrOf (setAttrOf s10.dom 0 s10.options.identifier
        ("micropop-" ++ toString (s10.gen + 1))) 0 s10.options.identifier
      = some ("micropop-" ++ toString (s10.gen + 1)) ∧
    (∀ h' n, n ≠ s10.options.identifier →
      getAttrOf (setAttrOf s10.dom 0 s10.options.identifier
          ("micropop-" ++ toString (s10.gen + 1))) h' n = getAttrOf s10.dom h' n) ∧
    (∀ h', classesOf (setAttrOf s10.dom 0 s10.options.identifier
        ("micropop-" ++ toString (s10.gen + 1))) h' = classesOf s10.dom h') :=
  registry_ops_stamp_unregistered_element s10 0 (by decide) (by decide) (by decide) (by decide)

/-- Claim C7 (amended): a non-empty string display reference resolving to no
element makes construction fail immediately in all three revisions: 0.1.1
throws the dedicated could-not-find error (the spec's ElementNotFoundError),
while 0.1.0 and 0.2.0 fail during construction with a TypeError from
dereferencing the null element in _init, not with an ElementNotFoundError. -/
theorem unresolved_string_construction_fails (opts : Options) (d : DOM) (n : Nat)
    (cfg : PopupCfg) (sid : String)
    (hp : cfg.popup = some (.str sid)) (hne : sid ≠ "")
    (hmiss : getElementById d sid = none) :
    construct1 d n cfg
      = .error (JsError.jsError "[MicroPop] Could not find the popup element id:") ∧
    construct0 d n cfg = .error JsError.typeError ∧
    construct2 opts d n cfg = .error JsError.typeError := by
  have hrt : refTruthy cfg.popup = true := by simp [hp, refTruthy, hne]
  have hrr : resolveRef d cfg.popup = none := by simp [hp, resolveRef, hmiss]
  refine ⟨?_, ?_, ?_⟩
  · simp [construct1, hrt, hrr]
  · cases htr : cfg.triggers with
    | single t => simp [construct0, htr]
    | arr l => simp [construct0, htr, hrr]
  · simp [construct2, hrt, hrr]

/-- C7 witness: the reference nope on the empty document. -/
theorem unresolved_string_construction_fails_witness :
    construct1 d7 0 cfg7
      = .error (JsError.jsError "[MicroPop] Could not find the popup element id:") ∧
    construct0 d7 0 cfg7 = .error JsError.typeError ∧
    construct2 dfltOptions d7 0 cfg7 = .error JsError.typeError :=
  unresolved_string_construction_fails dfltOptions d7 0 cfg7 "nope" rfl (by decide) (by decide)

/-- C7 counterexample: in the 0.2.0 revision the failure for an unresolvable
string reference is a TypeError, which is not the library's
element-not-found error, so construction does not fail with an
ElementNotFoundError there (0.1.0 behaves the same). -/
theorem unresolved_popup_type_error :
    construct2 dfltOptions d7 0 cfg7 = .error JsError.typeError ∧
    construct0 d7 0 cfg7 = .error JsError.typeError ∧
    JsError.typeError ≠ JsError.jsError "[MicroPop] Could not find the popup element id:" :=
  ⟨by decide, by decide, by decide⟩

/-- show preserves element presence. -/
theorem has_show (p : PopupInst) (d : DOM) (h' : Nat) :
    ((p.show d).1).has h' = d.has h' := by
  by_cases hvis : getAttrOf d p.popupEl "aria-hidden" = some "false"
  · simp [PopupInst.show, hvis]
  · cases ht : p.triggers.head? with
    | none => simp [PopupInst.show, hvis, ht, has_setAttrOf]
    | some t =>
      by_cases hvt : validToken p.openClass <;>
        simp [PopupInst.show, hvis, ht, hvt, has_setAttrOf, has_classAddOf]

/-- hide preserves element presence. -/
theorem has_hide (p : PopupInst) (d : DOM) (h' : Nat) :
    ((p.hide d).1).has h' = d.has h' := by
  by_cases hvis : getAttrOf d p.popupEl "aria-hidden" = some "true"
  · simp [PopupInst.hide, hvis]
  · cases ht : p.triggers.head? with
    | none => simp [PopupInst.hide, hvis, ht, has_setAttrOf]
    | some t =>
      by_cases hvt : validToken p.openClass <;>
        simp [PopupInst.hide, hvis, ht, hvt, has_setAttrOf, has_classRemoveOf]

/-- toggle preserves element presence. -/
theorem has_toggle (p : PopupInst) (d : DOM) (h' : Nat) :
    ((p.toggle d).1).has h' = d.has h' := by
  by_cases hvis : getAttrOf d p.popupEl "aria-hidden" = some "true" <;>
    simp [PopupInst.toggle, hvis, has_show, has_hide]

/-- A show call preserves the lock-step relation (with a live display element,
at least one trigger and a valid open-class token). -/
theorem lockstep_show (p : PopupInst) (d : DOM) (hhas : d.has p.popupEl = true)
    (htr : p.triggers ≠ []) (hvt : validToken p.openClass = true)
    (hls : lockstep p d) : lockstep p ((p.show d).1) := by
  obtain ⟨t, rest, htc⟩ : ∃ t rest, p.triggers = t :: rest := by
    cases hc : p.triggers with
    | nil => exact absurd hc htr
    | cons a b => exact ⟨a, b, rfl⟩
  by_cases hvis : getAttrOf d p.popupEl "aria-hidden" = some "false"
  · simpa [PopupInst.show, hvis] using hls
  · have hres : (p.show d).1 = classAddOf (setAttrOf
        (setAttrOf d p.popupEl "aria-hidden" "false") t "aria-expanded" "true")
        p.popupEl p.openClass := by
      simp [PopupInst.show, hvis, htc, hvt]
    have hhas2 : (setAttrOf (setAttrOf d p.popupEl "aria-hidden" "false") t
        "aria-expanded" "true").has p.popupEl = true := by
      rw [has_setAttrOf, has_setAttrOf]; exact hhas
    have hH : getAttrOf ((p.show d).1) p.popupEl "aria-hidden" = some "false" := by
      rw [hres, getAttrOf_classAddOf, getAttrOf_setAttrOf_ne_name _ _ _ _ _ _ (by decide)]
      exact getAttrOf_setAttrOf_self d p.popupEl _ _ hhas
    have hC : p.openClass ∈ classesOf ((p.show d).1) p.popupEl := by
      rw [hres]; exact mem_classAddOf_self _ _ _ hhas2
    rw [lockstep, hH]
    simp [hC]

/-- A hide call preserves the lock-step relation. -/
theorem lockstep_hide (p : PopupInst) (d : DOM) (hhas : d.has p.popupEl = true)
    (htr : p.triggers ≠ []) (hvt : validToken p.openClass = true)
    (hls : lockstep p d) : lockstep p ((p.hide d).1) := by
  obtain ⟨t, rest, htc⟩ : ∃ t rest, p.triggers = t :: rest := by
    cases hc : p.triggers with
    | nil => exact absurd hc htr
    | cons a b => exact ⟨a, b, rfl⟩
  by_cases hvis : getAttrOf d p.popupEl "aria-hidden" = some "true"
  · simpa [PopupInst.hide, hvis] using hls
  · have hres : (p.hide d).1 = classRemoveOf (setAttrOf
        (setAttrOf d p.popupEl "aria-hidden" "true") t "aria-expanded" "false")
        p.popupEl p.openClass := by
      simp [PopupInst.hide, hvis, htc, hvt]
    have hH : getAttrOf ((p.hide d).1) p.popupEl "aria-hidden" = some "true" := by
      rw [hres, getAttrOf_classRemoveOf, getAttrOf_setAttrOf_ne_name _ _ _ _ _ _ (by decide)]
      exact getAttrOf_setAttrOf_self d p.popupEl _ _ hhas
    have hC : p.openClass ∉ classesOf ((p.hide d).1) p.popupEl := by
      rw [hres]; exact not_mem_classRemoveOf_self _ _ _
    rw [lockstep, hH]
    simp [hC]

/-- A toggle call preserves the lock-step relation. -/
theorem lockstep_toggle (p : PopupInst) (d : DOM) (hhas : d.has p.popupEl = true)
    (htr : p.triggers ≠ []) (hvt : validToken p.openClass = true)
    (hls : lockstep p d) : lockstep p ((p.toggle d).1) := by
  by_cases hvis : getAttrOf d p.popupEl "aria-hidden" = some "true" <;>
    simp only [PopupInst.toggle, hvis, if_true, if_false, ite_true, ite_false]
  · exact lockstep_show p d hhas htr hvt hls
  · exact lockstep_hide p d hhas htr hvt hls

/-- Every sequence of instance-method calls preserves the lock-step relation. -/
theorem lockstep_runActs (p : PopupInst) (d : DOM) (acts : List PopAction)
    (htr : p.triggers ≠ []) (hvt : validToken p.openClass = true)
    (hhas : d.has p.popupEl = true) (hls : lockstep p d) :
    lockstep p (runActs p d acts) := by
  induction acts generalizing d with
  | nil => exact hls
  | cons a rest ih =>
    rcases a with _ | _ | _
    · simp only [runActs, applyAct]
      exact ih _ (by rw [has_show]; exact hhas) (lockstep_show p d hhas htr hvt hls)
    · simp only [runActs, applyAct]
      exact ih _ (by rw [has_hide]; exact hhas) (lockstep_hide p d hhas htr hvt hls)
    · simp only [runActs, applyAct]
      exact ih _ (by rw [has_toggle]; exact hhas) (lockstep_toggle p d hhas htr hvt hls)

/-- Claim C4 (amended): provided the display element is live, the popup has at
least one trigger, its open class is a valid token and the element does not
already carry the open class when construction runs _init, every sequence of
show / hide / toggle calls keeps aria-hidden=true and open-class absence in
lock-step: the two never disagree, and every toggle flips them together.
Without the no-prior-open-class proviso the claim fails at construction
already: see the counterexample. -/
theorem toggle_lockstep_invariant (p : PopupInst) (d : DOM) (acts : List PopAction)
    (hhas : d.has p.popupEl = true) (htr : p.triggers ≠ [])
    (hvt : validToken p.openClass = true)
    (hcls : p.openClass ∉ classesOf d p.popupEl) :
    lockstep p (runActs p (initFull p d) acts) := by
  have hbase : lockstep p (initFull p d) := by
    obtain ⟨h1, -, -, h4⟩ := initFull_spec p d hhas
    rw [lockstep, h1, h4]
    simp [hcls]
  have hhas2 : (initFull p d).has p.popupEl = true := by
    rw [initFull, has_attachFold, initAria, has_setAttrOf, has_setAttrOf, has_setAttrOf]
    exact hhas
  exact lockstep_runActs p (initFull p d) acts htr hvt hhas2 hbase

/-- C4 witness: a concrete clean construction followed by a concrete mix of
toggles, shows and hides keeps the two indicators in lock-step. -/
theorem toggle_lockstep_invariant_witness :
    lockstep p4 (runActs p4 (initFull p4 d4w)
      [.toggle, .show, .toggle, .hide, .toggle]) :=
  toggle_lockstep_invariant p4 d4w [.toggle, .show, .toggle, .hide, .toggle]
    (by decide) (by decide) (by decide) (by decide)

/-- C4 counterexample: when the display element already carries the open class
at construction, right after construction aria-hidden reads true while the
open class is present (the two disagree), and the first toggle flips
aria-hidden without flipping the class membership. -/
theorem toggle_lockstep_counterexample :
    ¬ lockstep p4 (initFull p4 d4c) ∧
    getAttrOf (initFull p4 d4c) 0 "aria-hidden" = some "true" ∧
    "is-open" ∈ classesOf (initFull p4 d4c) 0 ∧
    getAttrOf (runActs p4 (initFull p4 d4c) [.toggle]) 0 "aria-hidden" = some "false" ∧
    "is-open" ∈ classesOf (runActs p4 (initFull p4 d4c) [.toggle]) 0 := by
  refine ⟨?_, by decide, by decide, by decide, by decide⟩
  simp only [lockstep]
  decide

/-- The target-resolution step touches at most the document (an identifier
stamp) and the generated-id counter: registry, allocation counter, warning
count, options and all listener lists are untouched. -/
theorem resolveTarget_shape (s : MPState) (cfg : InitConfig) :
    (resolveTarget s cfg).2.popups = s.popups ∧
    (resolveTarget s cfg).2.nextInst = s.nextInst ∧
    (resolveTarget s cfg).2.options = s.options ∧
    (∀ h', listenersOf (resolveTarget s cfg).2.dom h' = listenersOf s.dom h') := by
  by_cases ht : truthyS cfg.targetPopupId = true
  · simp [resolveTarget, ht]
  · rcases hr : cfg.popup.getD .other with t | h | _
    · simp [resolveTarget, ht, _getTargetId, hr]
    · by_cases h1 : truthyS (getAttrOf s.dom h s.options.identifier) = true
      · simp [resolveTarget, ht, _getTargetId, hr, h1]
      · by_cases h2 : (elemNativeId s.dom h != "") = true
        · simp [resolveTarget, ht, _getTargetId, hr, h1, h2]
        · simp [resolveTarget, ht, _getTargetId, hr, h1, h2, listenersOf_setAttrOf]
    · simp [resolveTarget, ht, _getTargetId, hr]

/-- Claim C1 (amended): when the resolved identifier is already registered,
the second initPopup call constructs no Popup (the allocation counter is
untouched), attaches no event listeners and leaves the registry unchanged;
the 0.1.1 / 0.2.0 revisions return the identical registered instance, but the
0.1.0 revision bare-returns, yielding undefined instead of the instance (see
the counterexample). -/
theorem initPopup_duplicate_behavior (s : MPState) (cfg : InitConfig) (p : PopupInst)
    (hdup : regFind (resolveTarget s cfg).2.popups (keyOf (resolveTarget s cfg).1) = some p) :
    (initPopup2 s cfg).1 = .ok (some p) ∧
    (initPopup1 s cfg).1 = .ok (some p) ∧
    (initPopup0 s cfg).1 = .ok none ∧
    (initPopup2 s cfg).2.popups = s.popups ∧
    (initPopup1 s cfg).2.popups = s.popups ∧
    (initPopup0 s cfg).2.popups = s.popups ∧
    (initPopup2 s cfg).2.nextInst = s.nextInst ∧
    (initPopup1 s cfg).2.nextInst = s.nextInst ∧
    (initPopup0 s cfg).2.nextInst = s.nextInst ∧
    (∀ h', listenersOf (initPopup2 s cfg).2.dom h' = listenersOf s.dom h') ∧
    (∀ h', listenersOf (initPopup1 s cfg).2.dom h' = listenersOf s.dom h') ∧
    (∀ h', listenersOf (initPopup0 s cfg).2.dom h' = listenersOf s.dom h') := by
  obtain ⟨hpp, hni, hop, hli⟩ := resolveTarget_shape s cfg
  have hdup' : regFind s.popups (keyOf (resolveTarget s cfg).1) = some p := by
    rw [← hpp]; exact hdup
  by_cases hdb : (resolveTarget s cfg).2.options.debugMode = true <;>
    exact ⟨by simp [initPopup2, hpp, hdup', hdb],
           by simp [initPopup1, hpp, hdup', hdb],
           by simp [initPopup0, hpp, hdup'],
           by simp [initPopup2, hpp, hdup', hdb],
           by simp [initPopup1, hpp, hdup', hdb],
           by simp [initPopup0, hpp, hdup'],
           by simp [initPopup2, hpp, hdup', hdb, hni],
           by simp [initPopup1, hpp, hdup', hdb, hni],
           by simp [initPopup0, hpp, hdup', hni],
           fun h' => by simp [initPopup2, hpp, hdup', hdb, hli],
           fun h' => by simp [initPopup1, hpp, hdup', hdb, hli],
           fun h' => by simp [initPopup0, hpp, hdup', hli]⟩

/-- C1 witness: a second 0.2.0 call with the configuration of the first
returns the registered instance, and the registry, allocation counter and
listener lists are untouched; a second 0.1.0 call returns nothing. -/
theorem initPopup_duplicate_behavior_witness :
    (initPopup2 s1w cfg1w).1 = .ok (some p1w) ∧
    (initPopup0 s1w cfg1w).1 = .ok none ∧
    (initPopup2 s1w cfg1w).2.popups = s1w.popups ∧
    (initPopup2 s1w cfg1w).2.nextInst = s1w.nextInst ∧
    listenersOf (initPopup2 s1w cfg1w).2.dom 0 = listenersOf s1w.dom 0 := by
  obtain ⟨h1, h2, h3, h4, h5, h6, h7, h8, h9, h10, h11, h12⟩ :=
    initPopup_duplicate_behavior s1w cfg1w p1w (by decide)
  exact ⟨h1, h3, h4, h7, h10 0⟩

/-- C1 counterexample: in the 0.1.0 revision the first initPopup call
registers and returns the instance, but the second call with the same
configuration returns undefined, not the identical registered instance. -/
theorem initPopup_v010_dup_returns_nothing :
    (initPopup0 s1c cfg1).1 = .ok (some p1c) ∧
    (initPopup0 (initPopup0 s1c cfg1).2 cfg1).1 = .ok none ∧
    (Except.ok none : Except JsError (Option PopupInst)) ≠ .ok (some p1c) :=
  ⟨by decide, by decide, by decide⟩

/-- Merging the empty patch leaves the options unchanged. -/
theorem applyPatch_empty (o : Options) : applyPatch o {} = o := rfl

/-- The aria block writes no attribute outside the three aria names. -/
theorem getAttrOf_initAria_ne (d : DOM) (pe h' : Nat) (n : String)
    (h1 : n ≠ "aria-haspopup") (h2 : n ≠ "aria-expanded") (h3 : n ≠ "aria-hidden") :
    getAttrOf (initAria d pe) h' n = getAttrOf d h' n := by
  rw [initAria, getAttrOf_setAttrOf_ne_name _ _ _ _ _ _ h3,
    getAttrOf_setAttrOf_ne_name _ _ _ _ _ _ h2, getAttrOf_setAttrOf_ne_name _ _ _ _ _ _ h1]

/-- The aria block never touches id attributes, so lookups are stable. -/
theorem getElementById_initAria (d : DOM) (pe : Nat) (s' : String) :
    getElementById (initAria d pe) s' = getElementById d s' := by
  rw [initAria, getElementById_setAttrOf _ _ _ _ _ (by decide),
    getElementById_setAttrOf _ _ _ _ _ (by decide),
    getElementById_setAttrOf _ _ _ _ _ (by decide)]

/-- Listener attachment never touches id attributes, so lookups are stable. -/
theorem getElementById_attachTrigger (pe i : Nat) (d : DOM) (tc : Nat × Option String)
    (s' : String) : getElementById (attachTrigger pe i d tc) s' = getElementById d s' := by
  rcases tc with ⟨t, r⟩
  rcases r with _ | rv
  · rfl
  by_cases h1 : rv = "tooltip"
  · simp [attachTrigger, h1, getElementById_addListenerOf,
      getElementById_setAttrOf d pe "role" "tooltip" s' (by decide)]
  by_cases h2 : rv = "dialog"
  · simp [attachTrigger, h1, h2, getElementById_addListenerOf,
      getElementById_setAttrOf d pe "role" "dialog" s' (by decide)]
  · simp [attachTrigger, h1, h2]

/-- Folded listener attachment keeps getElementById stable. -/
theorem getElementById_attachFold (pe i : Nat) (tcs : List (Nat × Option String)) (d : DOM)
    (s' : String) :
    getElementById (tcs.foldl (attachTrigger pe i) d) s' = getElementById d s' := by
  induction tcs generalizing d with
  | nil => rfl
  | cons tc rest ih => rw [List.foldl_cons, ih, getElementById_attachTrigger]

/-- One fresh auto-discovery initPopup step (0.2.0): a non-empty, unregistered
string target resolving to a live element registers exactly one new instance
with the single trigger and the token role, stamps the identifier attribute
onto the target element and bumps the allocation counter. -/
theorem initPopup2_fresh_str (s : MPState) (tid : String) (t e : Nat) (rl : String)
    (htid : tid ≠ "") (hrl : rl ≠ "")
    (hreg : regFind s.popups tid = none)
    (hel : getElementById s.dom tid = some e) :
    initPopup2 s { popup := some (.str tid), triggers := some (.single t), role := some rl }
      = (.ok (some ⟨s.nextInst, e, [t], s.options.openClass, some rl, [(t, some rl)]⟩),
         { s with
             dom := setAttrOf
               (initFull ⟨s.nextInst, e, [t], s.options.openClass, some rl, [(t, some rl)]⟩
                 s.dom)
               e s.options.identifier tid,
             popups := s.popups ++
               [(tid, ⟨s.nextInst, e, [t], s.options.openClass, some rl, [(t, some rl)]⟩)],
             nextInst := s.nextInst + 1 }) := by
  have hb : (tid != "") = true := by simp [htid]
  have hbr : (rl != "") = true := by simp [hrl]
  simp [initPopup2, resolveTarget, _getTargetId, keyOf, truthyS, hreg, construct2,
    refTruthy, hb, resolveRef, hel, arrayify, jsOr, hbr]

/-- Claim C9: with the default options, on a document whose single
trigger-declaring element t declares the role tokens tooltip dialog and
carries both role-namespaced target attributes naming distinct, non-empty,
previously unregistered identifiers of live elements, init (auto-discovery,
empty config) finishes without error and registers exactly two distinct
Popup instances (consecutive allocation numbers): one under i1 with role
tooltip on element e1 and one under i2 with role dialog on element e2, both
holding the same single trigger t. -/
theorem discovery_two_roles (s : MPState) (t e1 e2 : Nat) (i1 i2 : String)
    (hopts : s.options = dfltOptions)
    (hq : queryTriggers s.dom "data-micropop-trigger" = [t])
    (hdecl : getAttrOf s.dom t "data-micropop-trigger" = some "tooltip dialog")
    (ht1 : getAttrOf s.dom t "data-micropop-tooltip" = some i1)
    (ht2 : getAttrOf s.dom t "data-micropop-dialog" = some i2)
    (hi1 : i1 ≠ "") (hi2 : i2 ≠ "") (hne : i1 ≠ i2)
    (he1 : getElementById s.dom i1 = some e1)
    (he2 : getElementById s.dom i2 = some e2)
    (hr1 : regFind s.popups i1 = none)
    (hr2 : regFind s.popups i2 = none) :
    (init2 s {}).2 = none ∧
    (init2 s {}).1.popups = s.popups ++
      [(i1, ⟨s.nextInst, e1, [t], "is-open", some "tooltip", [(t, some "tooltip")]⟩),
       (i2, ⟨s.nextInst + 1, e2, [t], "is-open", some "dialog", [(t, some "dialog")]⟩)] ∧
    s.nextInst ≠ s.nextInst + 1 := by
  have hocl : s.options.openClass = "is-open" := by rw [hopts]; rfl
  have hoid : s.options.identifier = "data-micropop-id" := by rw [hopts]; rfl
  have holib : s.options.libraryAttribute = "data-micropop" := by rw [hopts]; rfl
  have hotr : s.options.openTrigger = "data-micropop-trigger" := by rw [hopts]; rfl
  have hbi1 : (i1 != "") = true := by simp [hi1]
  have hbi2 : (i2 != "") = true := by simp [hi2]
  have hstepA := initPopup2_fresh_str s i1 t e1 "tooltip" hi1 (by decide) hr1 he1
  rw [hocl, hoid] at hstepA
  set PA : PopupInst :=
    ⟨s.nextInst, e1, [t], "is-open", some "tooltip", [(t, some "tooltip")]⟩ with hPA
  set dA : DOM := setAttrOf (initFull PA s.dom) e1 "data-micropop-id" i1 with hdA
  set sA : MPState :=
    { s with dom := dA, popups := s.popups ++ [(i1, PA)], nextInst := s.nextInst + 1 }
    with hsAdef
  have hbA : getAttrOf dA t "data-micropop-dialog" = some i2 := by
    rw [hdA, getAttrOf_setAttrOf_ne_name _ _ _ _ _ _ (by decide), initFull,
      getAttrOf_attachFold _ _ _ _ _ _ (by decide),
      getAttrOf_initAria_ne _ _ _ _ (by decide) (by decide) (by decide)]
    exact ht2
  have helB : getElementById dA i2 = some e2 := by
    rw [hdA, getElementById_setAttrOf _ _ _ _ _ (by decide), initFull,
      getElementById_attachFold, getElementById_initAria]
    exact he2
  have hregB : regFind (s.popups ++ [(i1, PA)]) i2 = none := by
    rw [regFind_append, hr2]
    simp [Ne.symm hne]
  have hstepB := initPopup2_fresh_str sA i2 t e2 "dialog" hi2 (by decide)
    (by rw [hsAdef]; exact hregB) (by rw [hsAdef]; exact helB)
  have hAocl : sA.options.openClass = "is-open" := by rw [hsAdef]; exact hocl
  have hAid : sA.options.identifier = "data-micropop-id" := by rw [hsAdef]; exact hoid
  have hAni : sA.nextInst = s.nextInst + 1 := by rw [hsAdef]
  rw [hAocl, hAid, hAni] at hstepB
  set PB : PopupInst :=
    ⟨s.nextInst + 1, e2, [t], "is-open", some "dialog", [(t, some "dialog")]⟩ with hPB
  set dB : DOM := setAttrOf (initFull PB sA.dom) e2 "data-micropop-id" i2 with hdB
  set sB : MPState :=
    { sA with dom := dB, popups := sA.popups ++ [(i2, PB)], nextInst := s.nextInst + 1 + 1 }
    with hsBdef
  have hcat1 : s.options.libraryAttribute ++ "-" ++ "tooltip" = "data-micropop-tooltip" := by
    rw [holib]; decide
  have hAcat : sA.options.libraryAttribute ++ "-" ++ "dialog" = "data-micropop-dialog" := by
    rw [hsAdef, holib]; decide
  have hbAdom : getAttrOf sA.dom t "data-micropop-dialog" = some i2 := by
    rw [hsAdef]; exact hbA
  have htok : initTokens t s ["tooltip", "dialog"] = (sB, none) := by
    simp only [initTokens, hcat1, ht1, truthyS, hbi1, Option.getD_some, hstepA,
      hAcat, hbAdom, hbi2, hstepB, ite_true]
  have hsplit : splitSp "tooltip dialog" = ["tooltip", "dialog"] := by decide
  have h0 : ({ s with options := s.options } : MPState) = s := rfl
  have h2 : getAttrOf s.dom t s.options.openTrigger = some "tooltip dialog" := by
    rw [hotr]; exact hdecl
  have hq2 : queryTriggers s.dom s.options.openTrigger = [t] := by rw [hotr]; exact hq
  have hfin : init2 s {} = (sB, none) := by
    simp only [init2, applyPatch_empty, h0, hq2]
    simp only [initTrigs, h2, hsplit, htok]
  rw [hfin]
  refine ⟨rfl, ?_, by omega⟩
  rw [hsBdef, hsAdef]
  simp [hPA, hPB]

/-- C9 witness: the concrete document s9 with the trigger 0 declaring
tooltip dialog and targets tip1 (element 1) and dlg1 (element 2). -/
theorem discovery_two_roles_witness :
    (init2 s9 {}).2 = none ∧
    (init2 s9 {}).1.popups = s9.popups ++
      [("tip1", ⟨s9.nextInst, 1, [0], "is-open", some "tooltip", [(0, some "tooltip")]⟩),
       ("dlg1", ⟨s9.nextInst + 1, 2, [0], "is-open", some "dialog", [(0, some "dialog")]⟩)] ∧
    s9.nextInst ≠ s9.nextInst + 1 :=
  discovery_two_roles s9 0 1 2 "tip1" "dlg1" (by decide) (by decide) (by decide)
    (by decide) (by decide) (by decide) (by decide) (by decide) (by decide) (by decide)
    (by decide) (by decide)

/-- Claim C3: for every Popup and every starting state of its display element
and first trigger, show() twice leaves exactly the state one show() leaves
(so in particular the aria-hidden attribute, the first trigger's aria-expanded
attribute and the open-class membership coincide), and likewise hide() twice
equals hide() once.  The resulting documents are equal outright. -/
theorem show_hide_idempotent (p : PopupInst) (d : DOM) :
    (p.show (p.show d).1).1 = (p.show d).1 ∧ (p.hide (p.hide d).1).1 = (p.hide d).1 :=
  ⟨show_step_idem p d, hide_step_idem p d⟩

end MicroPop
